import Mathlib

/-! Scene composer and view controller of the desk-scene renderer

A shallow embedding of `SceneManager.cpp` and `ViewManager.cpp`
(7-1_FinalProjectMilestones/Source), followed by theorems about it.

Conventions of the embedding

* `float` values are exact rationals: the theorems speak about the arithmetic
  the code writes down, not about IEEE rounding, infinities or NaN.  The one
  rounding that is modelled is the narrowing of a `double` to a `float` in
  `Mouse_Position_Callback`, where the code subtracts a narrowed value from the
  value it was narrowed from.
* The texture registry `m_textureIDs[0 .. m_loadedTextures)` is a list whose
  length is `m_loadedTextures`; `m_objectMaterials` (a `std::vector`) is a list.
* The shader manager is a sink: its state is the sequence of uniform
  assignments it has received.  `m_pShaderManager` is an `Option`, `none`
  standing for the NULL pointer.
* The graphics backend is the sequence of calls issued to it.
-/

set_option autoImplicit false

/-- Exact stand-in for the C++ type `float`. -/
abbrev float := ℚ

/-- The type `GLuint`. -/
abbrev GLuint := ℕ

/-- A `glm::vec2`. -/
structure vec2 where
  x : float
  y : float
deriving DecidableEq

/-- A `glm::vec3`. -/
structure vec3 where
  x : float
  y : float
  z : float
deriving DecidableEq

/-- A `glm::vec4`, with the colour names of its components. -/
structure vec4 where
  r : float
  g : float
  b : float
  a : float
deriving DecidableEq

/-- Modelled from the spec: the struct `TEXTURE_INFO` is declared in
`SceneManager.h`, which is not among the sources.  An entry holds an identifier
and a tag.  The identifier is a `GLuint` (`DestroyGLTextures` hands its address
to `glDeleteTextures`); the field holds the value of that name as an integer. -/
structure TEXTURE_INFO where
  ID : ℤ
  tag : String
deriving DecidableEq

/-- Modelled from the spec: the struct `OBJECT_MATERIAL` is declared in
`SceneManager.h`, which is not among the sources.  The fields are the four that
`FindMaterial` and `PrepareScene` use. -/
structure OBJECT_MATERIAL where
  tag : String
  diffuseColor : vec3
  specularColor : vec3
  shininess : float
deriving DecidableEq

/-- A `glm::mat4`, as the matrix it denotes (row index first). -/
abbrev mat4 := Matrix (Fin 4) (Fin 4) float

/-! ## The GLM functions that `SetTransformations` calls

GLM is a library outside this repository.  Each function is written after its
GLM header, for the matrix the result denotes; `operator*` on `mat4` is the
matrix product. -/

namespace glm

/-- The scalar functions of the math library that `glm::rotate` calls. -/
structure MathFunctions where
  cos : float → float
  sin : float → float
  inversesqrt : float → float

/-- The function `glm::radians`: the argument times the constant of the header. -/
def radians (degrees : float) : float :=
  degrees * (0.01745329251994329576923690768489 : ℚ)

/-- The function `glm::normalize` on `vec3`: `v * inversesqrt(dot(v, v))`. -/
def normalize (F : MathFunctions) (v : vec3) : vec3 :=
  let k := F.inversesqrt (v.x * v.x + v.y * v.y + v.z * v.z)
  { x := v.x * k, y := v.y * k, z := v.z * k }

/-- The function `glm::scale(v)`, the scaling of the identity matrix. -/
def scale (v : vec3) : mat4 :=
  !![v.x, 0, 0, 0;
     0, v.y, 0, 0;
     0, 0, v.z, 0;
     0, 0, 0, 1]

/-- The function `glm::translate(v)`, the translation of the identity matrix. -/
def translate (v : vec3) : mat4 :=
  !![1, 0, 0, v.x;
     0, 1, 0, v.y;
     0, 0, 1, v.z;
     0, 0, 0, 1]

/-- The function `glm::rotate(angle, v)`, the rotation of the identity matrix:
with `c`, `s` the cosine and sine of the angle, `axis` the normalised `v` and
`temp = (1 - c) * axis`, the entry in row `r` and column `k` is GLM's
`Rotate[k][r]`. -/
def rotate (F : MathFunctions) (angle : float) (v : vec3) : mat4 :=
  let c := F.cos angle
  let s := F.sin angle
  let axis := normalize F v
  let temp : vec3 := { x := (1 - c) * axis.x, y := (1 - c) * axis.y, z := (1 - c) * axis.z }
  !![c + temp.x * axis.x, temp.y * axis.x - s * axis.z, temp.z * axis.x + s * axis.y, 0;
     temp.x * axis.y + s * axis.z, c + temp.y * axis.y, temp.z * axis.y - s * axis.x, 0;
     temp.x * axis.z - s * axis.y, temp.y * axis.z + s * axis.x, c + temp.z * axis.z, 0;
     0, 0, 0, 1]

end glm

namespace SceneManager

/-! ## Texture registry -/

/-- What `stbi_load` hands back for a file that decodes: the dimensions and the
channel count it writes through its out-parameters. -/
structure Image where
  width : ℤ
  height : ℤ
  colorChannels : ℤ
deriving DecidableEq

/-- Wrap modes and formats named in `CreateGLTexture`. -/
inductive GLenum where
  | GL_CLAMP_TO_EDGE
  | GL_REPEAT
  | GL_RGB8
  | GL_RGBA8
deriving DecidableEq

/-- Calls that `CreateGLTexture`, `BindGLTextures` and `DestroyGLTextures` issue
to the graphics backend and to the image library, in the order of issue. -/
inductive GLCall where
  | glGenTextures (textureID : GLuint)
  | glBindTexture (textureID : GLuint)
  | glActiveTexture (unit : ℕ)
  | glDeleteTextures (textureID : GLuint)
  | glTexParameteriWrapS (mode : GLenum)
  | glTexParameteriWrapT (mode : GLenum)
  | glTexParameteriMinFilterLinearMipmapLinear
  | glTexParameteriMagFilterLinear
  | glGetFloatvMaxAnisotropy
  | glTexParameterfMaxAnisotropy (aniso : float)
  | glTexImage2D (internalFormat : GLenum) (width height : ℤ)
  | glGenerateMipmap
  | stbi_image_free
deriving DecidableEq

/-- The part of the scene manager that `CreateGLTexture` reads and writes: the
registry and the calls issued so far. -/
structure TextureState where
  m_textureIDs : List TEXTURE_INFO
  glCalls : List GLCall
deriving DecidableEq

/-- The field `m_loadedTextures`: the number of registered entries. -/
def TextureState.m_loadedTextures (s : TextureState) : ℕ := s.m_textureIDs.length

/-- The function `SceneManager::CreateGLTexture`.  The answers of the collaborators are
arguments: `image` is the result of `stbi_load` (`none` for a null pointer),
`textureID` the name written by `glGenTextures`, `maxAniso` the value left in
`aniso` by `glGetFloatv`.  Returns the boolean result and the state after. -/
def CreateGLTexture (s : TextureState) (image : Option Image) (textureID : GLuint)
    (maxAniso : float) (tag : String) : Bool × TextureState :=
  match image with
  | none => (false, s)
  | some img =>
    let wrap := if tag = "keyboard" ∨ tag = "mouse" then GLenum.GL_CLAMP_TO_EDGE
                else GLenum.GL_REPEAT
    let aniso := if maxAniso < 1 then 1 else maxAniso
    let gl₁ := s.glCalls ++
      [GLCall.glGenTextures textureID, GLCall.glBindTexture textureID,
       GLCall.glTexParameteriWrapS wrap, GLCall.glTexParameteriWrapT wrap,
       GLCall.glTexParameteriMinFilterLinearMipmapLinear,
       GLCall.glTexParameteriMagFilterLinear,
       GLCall.glGetFloatvMaxAnisotropy,
       GLCall.glTexParameterfMaxAnisotropy aniso]
    if img.colorChannels = 3 then
      (true,
        { m_textureIDs := s.m_textureIDs ++ [{ ID := (textureID : ℤ), tag := tag }]
          glCalls := gl₁ ++ [GLCall.glTexImage2D GLenum.GL_RGB8 img.width img.height,
            GLCall.glGenerateMipmap, GLCall.stbi_image_free, GLCall.glBindTexture 0] })
    else if img.colorChannels = 4 then
      (true,
        { m_textureIDs := s.m_textureIDs ++ [{ ID := (textureID : ℤ), tag := tag }]
          glCalls := gl₁ ++ [GLCall.glTexImage2D GLenum.GL_RGBA8 img.width img.height,
            GLCall.glGenerateMipmap, GLCall.stbi_image_free, GLCall.glBindTexture 0] })
    else
      (false, { s with glCalls := gl₁ })

/-- The conversion of the `GLuint` in the field `ID` to the `int` that
`FindTextureID` returns (32 bits, two's complement): a value below 2^31 is kept,
a value from 2^31 on comes out 2^32 lower. -/
def GLuint_to_int (v : ℤ) : ℤ := (v + 2147483648) % 4294967296 - 2147483648

/-- The `while` loop of `FindTextureID`, entered with the current values of the
locals `textureID`, `index` and `bFound`; the value is `textureID` at exit. -/
def FindTextureID.loop (m_textureIDs : List TEXTURE_INFO) (tag : String)
    (textureID : ℤ) (index : ℕ) (bFound : Bool) : ℤ :=
  if h : index < m_textureIDs.length ∧ bFound = false then
    if m_textureIDs[index].tag = tag then
      FindTextureID.loop m_textureIDs tag (GLuint_to_int m_textureIDs[index].ID) index true
    else
      FindTextureID.loop m_textureIDs tag textureID (index + 1) bFound
  else textureID
termination_by (m_textureIDs.length - index) + (if bFound then 0 else 1)
decreasing_by
  · simp_wf; simp [h.2]
  · simp_wf; omega

/-- The function `SceneManager::FindTextureID`. -/
def FindTextureID (m_textureIDs : List TEXTURE_INFO) (tag : String) : ℤ :=
  FindTextureID.loop m_textureIDs tag (-1) 0 false

/-- The `while` loop of `FindTextureSlot`, entered with the current values of
the locals `textureSlot`, `index` and `bFound`; the value is `textureSlot` at
exit. -/
def FindTextureSlot.loop (m_textureIDs : List TEXTURE_INFO) (tag : String)
    (textureSlot : ℤ) (index : ℕ) (bFound : Bool) : ℤ :=
  if h : index < m_textureIDs.length ∧ bFound = false then
    if m_textureIDs[index].tag = tag then
      FindTextureSlot.loop m_textureIDs tag (index : ℤ) index true
    else
      FindTextureSlot.loop m_textureIDs tag textureSlot (index + 1) bFound
  else textureSlot
termination_by (m_textureIDs.length - index) + (if bFound then 0 else 1)
decreasing_by
  · simp_wf; simp [h.2]
  · simp_wf; omega

/-- The function `SceneManager::FindTextureSlot`. -/
def FindTextureSlot (m_textureIDs : List TEXTURE_INFO) (tag : String) : ℤ :=
  FindTextureSlot.loop m_textureIDs tag (-1) 0 false

/-! ## Material registry -/

/-- The `while` loop of `FindMaterial`, entered with the current values of the
local `index`, the local `bFound` and the caller's record `material`; the value
is the pair of `bFound` and the record at exit. -/
def FindMaterial.loop (m_objectMaterials : List OBJECT_MATERIAL) (tag : String)
    (material : OBJECT_MATERIAL) (index : ℕ) (bFound : Bool) : Bool × OBJECT_MATERIAL :=
  if h : index < m_objectMaterials.length ∧ bFound = false then
    if m_objectMaterials[index].tag = tag then
      FindMaterial.loop m_objectMaterials tag
        { material with
          diffuseColor := m_objectMaterials[index].diffuseColor
          specularColor := m_objectMaterials[index].specularColor
          shininess := m_objectMaterials[index].shininess }
        index true
    else
      FindMaterial.loop m_objectMaterials tag material (index + 1) bFound
  else (bFound, material)
termination_by (m_objectMaterials.length - index) + (if bFound then 0 else 1)
decreasing_by
  · simp_wf; simp [h.2]
  · simp_wf; omega

/-- The function `SceneManager::FindMaterial`.  The reference parameter `material` is passed
in and handed back next to the boolean result. -/
def FindMaterial (m_objectMaterials : List OBJECT_MATERIAL) (tag : String)
    (material : OBJECT_MATERIAL) : Bool × OBJECT_MATERIAL :=
  if m_objectMaterials.length = 0 then (false, material)
  else FindMaterial.loop m_objectMaterials tag material 0 false

/-! ## Shader sink -/

/-- A value handed to one of the setters of the shader manager; the constructor
records which setter was called. -/
inductive UniformValue where
  | setBoolValue (v : Bool)
  | setIntValue (v : ℤ)
  | setFloatValue (v : float)
  | setVec2Value (v : vec2)
  | setVec3Value (v : vec3)
  | setVec4Value (v : vec4)
  | setMat4Value (v : mat4)
  | setSampler2DValue (v : ℤ)
deriving DecidableEq

/-- The shader manager as this code sees it: the named uniform assignments it
has received, oldest first. -/
structure ShaderManager where
  uniforms : List (String × UniformValue)
deriving DecidableEq

/-- One call of a setter of the shader manager. -/
def ShaderManager.set (sm : ShaderManager) (name : String) (v : UniformValue) :
    ShaderManager :=
  { uniforms := sm.uniforms ++ [(name, v)] }

/-- The value a uniform holds: that of the latest assignment to its name. -/
def ShaderManager.value (sm : ShaderManager) (name : String) : Option UniformValue :=
  (sm.uniforms.reverse.find? (fun u => u.1 = name)).map Prod.snd

/-- The global `g_ModelName`. -/
def g_ModelName : String := "model"
/-- The global `g_ColorValueName`. -/
def g_ColorValueName : String := "objectColor"
/-- The global `g_TextureValueName`. -/
def g_TextureValueName : String := "objectTexture"
/-- The global `g_UseTextureName`. -/
def g_UseTextureName : String := "bUseTexture"
/-- The global `g_UseLightingName`. -/
def g_UseLightingName : String := "bUseLighting"

/-- The function `SceneManager::SetShaderColor`.  The `false` passed to `setIntValue` is the
integer 0. -/
def SetShaderColor (m_pShaderManager : Option ShaderManager)
    (redColorValue greenColorValue blueColorValue alphaValue : float) :
    Option ShaderManager :=
  let currentColor : vec4 :=
    { r := redColorValue, g := greenColorValue, b := blueColorValue, a := alphaValue }
  match m_pShaderManager with
  | some sm =>
    some ((sm.set g_UseTextureName (.setIntValue 0)).set g_ColorValueName
      (.setVec4Value currentColor))
  | none => none

/-- The function `SceneManager::SetShaderTexture`.  The `true` passed to `setIntValue` is the
integer 1. -/
def SetShaderTexture (m_textureIDs : List TEXTURE_INFO)
    (m_pShaderManager : Option ShaderManager) (textureTag : String) :
    Option ShaderManager :=
  match m_pShaderManager with
  | some sm =>
    let sm₁ := sm.set g_UseTextureName (.setIntValue 1)
    let textureSlot := FindTextureSlot m_textureIDs textureTag
    some (sm₁.set g_TextureValueName (.setSampler2DValue textureSlot))
  | none => none

/-- The function `SceneManager::SetTextureUVScale`. -/
def SetTextureUVScale (m_pShaderManager : Option ShaderManager) (u v : float) :
    Option ShaderManager :=
  match m_pShaderManager with
  | some sm => some (sm.set "UVscale" (.setVec2Value { x := u, y := v }))
  | none => none

/-- The function `SceneManager::SetShaderMaterial`.  The local `material` is declared without
an initialiser; `material₀` is whatever it holds before `FindMaterial` runs. -/
def SetShaderMaterial (m_objectMaterials : List OBJECT_MATERIAL)
    (m_pShaderManager : Option ShaderManager) (material₀ : OBJECT_MATERIAL)
    (materialTag : String) : Option ShaderManager :=
  match m_pShaderManager with
  | some sm =>
    if m_objectMaterials.length > 0 then
      let r := FindMaterial m_objectMaterials materialTag material₀
      let bFound := r.1
      let material := r.2
      if bFound = true then
        some (((sm.set "material.diffuseColor" (.setVec3Value material.diffuseColor)).set
          "material.specularColor" (.setVec3Value material.specularColor)).set
          "material.shininess" (.setFloatValue material.shininess))
      else some sm
    else some sm
  | none => none

/-- The function `SceneManager::SetTransformations`. -/
def SetTransformations (F : glm.MathFunctions) (m_pShaderManager : Option ShaderManager)
    (scaleXYZ : vec3) (XrotationDegrees YrotationDegrees ZrotationDegrees : float)
    (positionXYZ : vec3) : Option ShaderManager :=
  let scale := glm.scale scaleXYZ
  let rotationX := glm.rotate F (glm.radians XrotationDegrees) { x := 1, y := 0, z := 0 }
  let rotationY := glm.rotate F (glm.radians YrotationDegrees) { x := 0, y := 1, z := 0 }
  let rotationZ := glm.rotate F (glm.radians ZrotationDegrees) { x := 0, y := 0, z := 1 }
  let translation := glm.translate positionXYZ
  let modelView := translation * rotationZ * rotationY * rotationX * scale
  match m_pShaderManager with
  | some sm => some (sm.set g_ModelName (.setMat4Value modelView))
  | none => none

/-! ## Scene preparation -/

/-- The body of the `for` loop of `BindGLTextures` over the entries from index
`i` on: texture unit `i` is made active and entry `i` is bound to it. -/
def BindGLTextures.loop : List TEXTURE_INFO → ℕ → List GLCall
  | [], _ => []
  | t :: rest, i =>
    GLCall.glActiveTexture i :: GLCall.glBindTexture t.ID.toNat ::
      BindGLTextures.loop rest (i + 1)

/-- The function `SceneManager::BindGLTextures`. -/
def BindGLTextures (s : TextureState) : TextureState :=
  { s with glCalls := s.glCalls ++ BindGLTextures.loop s.m_textureIDs 0 }

/-- The function `SceneManager::DestroyGLTextures`. -/
def DestroyGLTextures (s : TextureState) : TextureState :=
  { s with glCalls := s.glCalls ++
      s.m_textureIDs.map (fun t => GLCall.glDeleteTextures t.ID.toNat) }

/-- The effect of one backend call on the list of texture names that are alive:
`glGenTextures` adds the new name, `glDeleteTextures` removes the name it is
given, every other call leaves the list alone. -/
def liveTextures.step (live : List GLuint) : GLCall → List GLuint
  | GLCall.glGenTextures textureID => live ++ [textureID]
  | GLCall.glDeleteTextures textureID => live.filter (fun t => t ≠ textureID)
  | _ => live

/-- The texture names that are alive after a sequence of backend calls, read
from the first call to the last: those generated and not deleted since. -/
def liveTextures (calls : List GLCall) : List GLuint :=
  calls.foldl liveTextures.step []

/-- The calls on the mesh collaborator `m_basicMeshes`. -/
inductive MeshCall where
  | LoadPlaneMesh
  | LoadBoxMesh
  | LoadCylinderMesh
  | LoadSphereMesh
  | DrawPlaneMesh
  | DrawCylinderMesh
  | DrawSphereMesh
  | DrawBoxMeshSide_box_front
  | DrawBoxMeshSide_box_back
  | DrawBoxMeshSide_box_left
  | DrawBoxMeshSide_box_right
  | DrawBoxMeshSide_box_bottom
  | DrawBoxMeshSide_box_top
deriving DecidableEq

/-- What the collaborators answer while one file is loaded: the result of
`stbi_load`, the name written by `glGenTextures` and the value left by
`glGetFloatv`. -/
structure LoadAnswer where
  image : Option Image
  textureID : GLuint
  maxAniso : float

/-- The members of the scene manager that `PrepareScene` writes. -/
structure SceneState where
  textures : TextureState
  m_objectMaterials : List OBJECT_MATERIAL
  meshCalls : List MeshCall

/-- A statement `CreateGLTexture(filename, tag);` of `PrepareScene`: the call
with the answers of the collaborators for that file, its result dropped. -/
def PrepareScene.load (answers : String → LoadAnswer) (s : TextureState)
    (filename tag : String) : TextureState :=
  (CreateGLTexture s (answers filename).image (answers filename).textureID
    (answers filename).maxAniso tag).2

/-- The function `SceneManager::PrepareScene`. -/
def PrepareScene (answers : String → LoadAnswer) (s : SceneState) : SceneState :=
  let meshCalls := s.meshCalls ++
    [MeshCall.LoadPlaneMesh, MeshCall.LoadBoxMesh, MeshCall.LoadCylinderMesh,
     MeshCall.LoadSphereMesh]
  let t := s.textures
  let t := PrepareScene.load answers t "textures/Wood.jpg" "wood"
  let t := PrepareScene.load answers t "textures/Plastic.jpg" "plastic"
  let t := PrepareScene.load answers t "textures/Keyboard.jpg" "keyboard"
  let t := PrepareScene.load answers t "textures/monitorscreen.jpg" "monitorscreen"
  let t := PrepareScene.load answers t "textures/DarkGrey.jpg" "DarkGrey"
  let t := PrepareScene.load answers t "textures/Mouse.png" "mouse"
  let t := PrepareScene.load answers t "textures/logitech.jpg" "logitech"
  let t := PrepareScene.load answers t "textures/Plant.jpg" "plant"
  let t := PrepareScene.load answers t "textures/Pot.jpg" "pot"
  let t := BindGLTextures t
  let materials : List OBJECT_MATERIAL := []
  let woodMat : OBJECT_MATERIAL :=
    { tag := "woodMat", diffuseColor := { x := 1, y := 1, z := 1 }
      specularColor := { x := 0.20, y := 0.20, z := 0.20 }, shininess := 16 }
  let materials := materials ++ [woodMat]
  let plasticMat : OBJECT_MATERIAL :=
    { tag := "plasticMat", diffuseColor := { x := 1, y := 1, z := 1 }
      specularColor := { x := 0.15, y := 0.15, z := 0.15 }, shininess := 8 }
  let materials := materials ++ [plasticMat]
  let keyboardMat : OBJECT_MATERIAL :=
    { tag := "keyboardMat", diffuseColor := { x := 1, y := 1, z := 1 }
      specularColor := { x := 0.50, y := 0.50, z := 0.50 }, shininess := 48 }
  let materials := materials ++ [keyboardMat]
  { textures := t, m_objectMaterials := materials, meshCalls := meshCalls }

/-! ## Scene rendering

The body of `RenderScene` is a fixed sequence of statements, each a call of one
of the setters above, a call of a setter of the shader manager through the
pointer `m_pShaderManager`, or a draw on `m_basicMeshes`.  The sequence is written
down statement by statement, one list per object of the scene, and run in
order. -/

/-- A draw as the backend sees it: the mesh call and the state of the shader
sink at the moment of the call. -/
structure DrawCall where
  mesh : MeshCall
  shader : Option ShaderManager

/-- The state a frame of rendering works on: the sink behind `m_pShaderManager`
and the draws issued so far. -/
structure RenderState where
  m_pShaderManager : Option ShaderManager
  draws : List DrawCall

/-- One statement of `SetupSceneLights` or `RenderScene`.  The first five are
calls of member functions of the scene manager; `setBoolValue`, `setIntValue` and
`setVec3Value` are calls through `m_pShaderManager->`; `draw` is a call on
`m_basicMeshes`. -/
inductive Call where
  | SetTransformations (scaleXYZ : vec3)
      (XrotationDegrees YrotationDegrees ZrotationDegrees : float) (positionXYZ : vec3)
  | SetShaderColor (redColorValue greenColorValue blueColorValue alphaValue : float)
  | SetShaderTexture (textureTag : String)
  | SetTextureUVScale (u v : float)
  | SetShaderMaterial (materialTag : String)
  | setBoolValue (name : String) (value : Bool)
  | setIntValue (name : String) (value : ℤ)
  | setVec3Value (name : String) (x y z : float)
  | draw (mesh : MeshCall)

/-- One statement executed.  A call through `m_pShaderManager->` on the NULL
pointer has no defined result: `none`. -/
def Call.exec (F : glm.MathFunctions) (m_textureIDs : List TEXTURE_INFO)
    (m_objectMaterials : List OBJECT_MATERIAL) (material₀ : OBJECT_MATERIAL) :
    Call → RenderState → Option RenderState
  | .SetTransformations scaleXYZ x y z positionXYZ, st =>
    some { st with m_pShaderManager :=
      SceneManager.SetTransformations F st.m_pShaderManager scaleXYZ x y z positionXYZ }
  | .SetShaderColor r g b a, st =>
    some { st with m_pShaderManager := SceneManager.SetShaderColor st.m_pShaderManager r g b a }
  | .SetShaderTexture textureTag, st =>
    some { st with m_pShaderManager :=
      SceneManager.SetShaderTexture m_textureIDs st.m_pShaderManager textureTag }
  | .SetTextureUVScale u v, st =>
    some { st with m_pShaderManager := SceneManager.SetTextureUVScale st.m_pShaderManager u v }
  | .SetShaderMaterial materialTag, st =>
    let sm := SceneManager.SetShaderMaterial m_objectMaterials st.m_pShaderManager
      material₀ materialTag
    some { st with m_pShaderManager := sm }
  | .setBoolValue name value, st =>
    match st.m_pShaderManager with
    | some sm =>
      some { st with m_pShaderManager := some (sm.set name (.setBoolValue value)) }
    | none => none
  | .setIntValue name value, st =>
    match st.m_pShaderManager with
    | some sm =>
      some { st with m_pShaderManager := some (sm.set name (.setIntValue value)) }
    | none => none
  | .setVec3Value name x y z, st =>
    match st.m_pShaderManager with
    | some sm =>
      let sm' := sm.set name (.setVec3Value { x := x, y := y, z := z })
      some { st with m_pShaderManager := some sm' }
    | none => none
  | .draw mesh, st =>
    some { st with draws := st.draws ++ [{ mesh := mesh, shader := st.m_pShaderManager }] }

/-- A sequence of statements executed in order. -/
def Call.run (F : glm.MathFunctions) (m_textureIDs : List TEXTURE_INFO)
    (m_objectMaterials : List OBJECT_MATERIAL) (material₀ : OBJECT_MATERIAL) :
    List Call → RenderState → Option RenderState
  | [], st => some st
  | c :: rest, st =>
    match c.exec F m_textureIDs m_objectMaterials material₀ st with
    | some st' => Call.run F m_textureIDs m_objectMaterials material₀ rest st'
    | none => none

/-- The statements of `SetupSceneLights` after its NULL guard; the `for` loop
over `i = 3, 4` builds the two names with `std::to_string`. -/
def SetupSceneLights.calls : List Call :=
  [.setBoolValue g_UseLightingName true,
   .setVec3Value "directionalLight.direction" (-0.25) (-1.0) (-0.30),
   .setVec3Value "directionalLight.ambient" 0.35 0.35 0.35,
   .setVec3Value "directionalLight.diffuse" 0.70 0.70 0.70,
   .setVec3Value "directionalLight.specular" 0.60 0.60 0.60,
   .setBoolValue "directionalLight.bActive" true,
   .setVec3Value "pointLights[0].position" 3.0 3.0 2.0,
   .setVec3Value "pointLights[0].ambient" 0.06 0.06 0.06,
   .setVec3Value "pointLights[0].diffuse" 0.80 0.80 0.80,
   .setVec3Value "pointLights[0].specular" 0.90 0.90 0.90,
   .setBoolValue "pointLights[0].bActive" true,
   .setVec3Value "pointLights[1].position" (-3.0) 2.5 (-2.0),
   .setVec3Value "pointLights[1].ambient" 0.05 0.05 0.05,
   .setVec3Value "pointLights[1].diffuse" 0.45 0.45 0.45,
   .setVec3Value "pointLights[1].specular" 0.50 0.50 0.50,
   .setBoolValue "pointLights[1].bActive" true,
   .setVec3Value "pointLights[2].position" 0.0 4.0 0.0,
   .setVec3Value "pointLights[2].ambient" 0.03 0.03 0.03,
   .setVec3Value "pointLights[2].diffuse" 0.35 0.35 0.35,
   .setVec3Value "pointLights[2].specular" 0.20 0.20 0.20,
   .setBoolValue "pointLights[2].bActive" true] ++
  (List.range' 3 (5 - 3)).map
    (fun i => Call.setBoolValue ("pointLights[" ++ toString i ++ "].bActive") false) ++
  [.setBoolValue "spotLight.bActive" false]

/-- The function `SceneManager::SetupSceneLights`: nothing on the NULL pointer,
otherwise its statements in order. -/
def SetupSceneLights (F : glm.MathFunctions) (m_textureIDs : List TEXTURE_INFO)
    (m_objectMaterials : List OBJECT_MATERIAL) (material₀ : OBJECT_MATERIAL)
    (st : RenderState) : Option RenderState :=
  match st.m_pShaderManager with
  | none => some st
  | some _ => Call.run F m_textureIDs m_objectMaterials material₀ SetupSceneLights.calls st

namespace RenderScene

/-- The floor plane. -/
def floor : List Call :=
  [.SetTransformations { x := 20.0, y := 1.0, z := 10.0 } 0 0 0 { x := 0.0, y := 0.0, z := 0.0 },
   .SetShaderMaterial "woodMat",
   .SetShaderTexture "wood",
   .SetTextureUVScale 8.0 4.0,
   .draw .DrawPlaneMesh]

/-- The desk plane. -/
def desk : List Call :=
  [.SetTransformations { x := 12.0, y := 1.0, z := 6.0 } 0 0 0 { x := 0.0, y := 0.05, z := 0.0 },
   .SetShaderMaterial "plasticMat",
   .SetShaderTexture "plastic",
   .SetTextureUVScale 1.0 1.0,
   .draw .DrawPlaneMesh]

/-- The keyboard base. -/
def keyboardBase : List Call :=
  [.SetTransformations { x := 6.5, y := 0.35, z := 2.2 } 0 0 0
     { x := 0.0, y := 0.20, z := -0.40 },
   .SetShaderMaterial "plasticMat",
   .SetShaderTexture "keyboard",
   .SetShaderColor 0.15 0.15 0.15 1.0,
   .SetTextureUVScale 1.0 1.0,
   .draw .DrawBoxMeshSide_box_front,
   .draw .DrawBoxMeshSide_box_back,
   .draw .DrawBoxMeshSide_box_left,
   .draw .DrawBoxMeshSide_box_right,
   .draw .DrawBoxMeshSide_box_bottom,
   .draw .DrawBoxMeshSide_box_top]

/-- The keyboard top plate. -/
def keyboardTop : List Call :=
  [.SetTransformations { x := 6.3, y := 0.12, z := 2.0 } 0 0 0
     { x := 0.0, y := 0.20 + (0.35 / 2.0) + (0.12 / 2.0), z := -0.40 },
   .SetShaderMaterial "keyboardMat",
   .SetShaderTexture "keyboard",
   .SetTextureUVScale 1.0 1.0,
   .draw .DrawBoxMeshSide_box_top,
   .SetShaderMaterial "plasticMat",
   .SetShaderTexture "plastic",
   .SetTextureUVScale 1.0 1.0,
   .draw .DrawBoxMeshSide_box_front,
   .draw .DrawBoxMeshSide_box_back,
   .draw .DrawBoxMeshSide_box_left,
   .draw .DrawBoxMeshSide_box_right,
   .draw .DrawBoxMeshSide_box_bottom]

/-- The local `deskY`. -/
def deskY : float := 0.05

/-- The monitor stand. -/
def monitorStand : List Call :=
  [.SetTransformations { x := 0.18, y := 1.6, z := 0.18 } 0 0 0
     { x := 0.0, y := deskY, z := -2.0 },
   .SetShaderMaterial "plasticMat",
   .SetShaderTexture "DarkGrey",
   .SetTextureUVScale 1.0 1.0,
   .draw .DrawCylinderMesh]

/-- The monitor: the screen face, the five faces of the frame, and the
statements that switch the lighting flag. -/
def monitor : List Call :=
  let scaleXYZ : vec3 := { x := 7.2, y := 3.4, z := 0.18 }
  let monitorHalfH : float := scaleXYZ.y * 0.5
  let positionXYZ : vec3 := { x := 0.0, y := deskY + 1.2 + monitorHalfH, z := -2.0 }
  [.SetTransformations scaleXYZ (-10.0) 0 0 positionXYZ,
   .SetShaderMaterial "plasticMat",
   .SetShaderTexture "monitorscreen",
   .SetTextureUVScale 1.0 1.0,
   .setBoolValue g_UseLightingName false,
   .SetShaderTexture "monitorscreen",
   .draw .DrawBoxMeshSide_box_front,
   .SetShaderTexture "DarkGrey",
   .draw .DrawBoxMeshSide_box_back,
   .draw .DrawBoxMeshSide_box_left,
   .draw .DrawBoxMeshSide_box_right,
   .draw .DrawBoxMeshSide_box_top,
   .draw .DrawBoxMeshSide_box_bottom,
   .setBoolValue g_UseLightingName true]

/-- The local `padScale`. -/
def padScale : vec3 := { x := 3.2, y := 0.05, z := 2.4 }

/-- The local `padPos`. -/
def padPos : vec3 := { x := 5.8, y := deskY + (padScale.y * 0.5) + 0.01, z := -0.35 }

/-- The mousepad. -/
def mousepad : List Call :=
  [.SetTransformations padScale 0 0 0 padPos,
   .SetShaderMaterial "plasticMat",
   .SetShaderColor 1.0 1.0 1.0 1.0,
   .SetShaderTexture "logitech",
   .SetTextureUVScale 1.0 1.0,
   .draw .DrawBoxMeshSide_box_top,
   .SetShaderTexture "DarkGrey",
   .SetTextureUVScale 1.0 1.0,
   .draw .DrawBoxMeshSide_box_front,
   .draw .DrawBoxMeshSide_box_back,
   .draw .DrawBoxMeshSide_box_left,
   .draw .DrawBoxMeshSide_box_right,
   .draw .DrawBoxMeshSide_box_bottom]

/-- The mouse. -/
def mouse : List Call :=
  let padTopY : float := padPos.y + (padScale.y * 0.5)
  let mouseR : float := 0.75
  let mouseScale : vec3 := { x := mouseR, y := mouseR * 0.55, z := mouseR }
  let mousePos : vec3 :=
    { x := padPos.x, y := padTopY + (mouseScale.y * 0.35), z := padPos.z }
  [.SetTransformations mouseScale 0 200.0 0 mousePos,
   .SetShaderMaterial "plasticMat",
   .SetShaderColor 1.0 1.0 1.0 1.0,
   .SetTextureUVScale 0.90 0.70,
   .SetShaderTexture "mouse",
   .SetTextureUVScale 1.0 1.0,
   .draw .DrawSphereMesh,
   .draw .DrawBoxMeshSide_box_top]

/-- The local `plantX`. -/
def plantX : float := -5.2

/-- The local `plantZ`. -/
def plantZ : float := -0.35

/-- The local `potScale`. -/
def potScale : vec3 := { x := 0.55, y := 0.45, z := 0.55 }

/-- The local `potPos`. -/
def potPos : vec3 := { x := plantX, y := deskY + (potScale.y * 0.5), z := plantZ }

/-- The pot of the plant. -/
def pot : List Call :=
  [.SetTransformations potScale 0 0 0 potPos,
   .SetShaderMaterial "plasticMat",
   .SetShaderColor 1.0 1.0 1.0 1.0,
   .SetShaderTexture "pot",
   .SetTextureUVScale 1.0 1.0,
   .draw .DrawCylinderMesh]

/-- The soil, drawn with the transformation of the pot. -/
def soil : List Call :=
  [.SetShaderTexture "soil",
   .SetTextureUVScale 1.0 1.0,
   .draw .DrawSphereMesh,
   .draw .DrawBoxMeshSide_box_top]

/-- The local `leavesBaseY`. -/
def leavesBaseY : float := potPos.y + (potScale.y * 0.5) + 0.02

/-- The local `cx`. -/
def cx : float := plantX

/-- The local `cz`. -/
def cz : float := plantZ

/-- The stem. -/
def stem : List Call :=
  let stemScale : vec3 := { x := 0.08, y := 0.70, z := 0.08 }
  let stemPos : vec3 := { x := cx, y := leavesBaseY + (stemScale.y * 0.5) - 0.12, z := cz }
  [.SetTransformations stemScale 0 0 0 stemPos,
   .SetShaderMaterial "plasticMat",
   .SetShaderColor 0.35 0.28 0.20 1.0,
   .setIntValue g_UseTextureName 0,
   .draw .DrawCylinderMesh]

/-- The local `leafScale`. -/
def leafScale : vec3 := { x := 0.22, y := 0.07, z := 0.16 }

/-- The lambda `DrawLeaf`. -/
def DrawLeaf (pos : vec3) (xRot yRot zRot : float) (scaleOverride : vec3) : List Call :=
  [.SetTransformations scaleOverride xRot yRot zRot pos,
   .draw .DrawSphereMesh]

/-- The lambda `DrawLeafDefault`. -/
def DrawLeafDefault (pos : vec3) (xRot yRot zRot : float) : List Call :=
  DrawLeaf pos xRot yRot zRot leafScale

/-- The local `yBottom`. -/
def yBottom : float := leavesBaseY + 0.28

/-- The local `yMid`. -/
def yMid : float := leavesBaseY + 0.45

/-- The local `yTop`. -/
def yTop : float := leavesBaseY + 0.58

/-- The local `capScale`. -/
def capScale : vec3 := { x := 0.16, y := 0.05, z := 0.12 }

/-- The local `yCap`. -/
def yCap : float := leavesBaseY + 0.80

/-- The local `rCap`. -/
def rCap : float := 0.09

/-- The local `rB`. -/
def rB : float := 0.20

/-- The local `rM`. -/
def rM : float := 0.17

/-- The local `leafScaleTop`. -/
def leafScaleTop : vec3 := { x := 0.18, y := 0.06, z := 0.13 }

/-- The local `rT`. -/
def rT : float := 0.12

/-- The leaves: the shared material, colour and texture, then the crown of eight
leaves and the tiny top leaf, the bottom ring, the middle ring and the top
ring. -/
def leaves : List Call :=
  [.SetShaderMaterial "plasticMat",
   .SetShaderColor 1.0 1.0 1.0 1.0,
   .SetShaderTexture "plant",
   .SetTextureUVScale 1.0 1.0] ++
    DrawLeaf { x := cx + rCap, y := yCap, z := cz } 40 90 0 capScale ++
    DrawLeaf { x := cx - rCap, y := yCap, z := cz } 40 (-90) 0 capScale ++
    DrawLeaf { x := cx, y := yCap, z := cz + rCap } 42 0 0 capScale ++
    DrawLeaf { x := cx, y := yCap, z := cz - rCap } 35 180 0 capScale ++
    DrawLeaf { x := cx + 0.07, y := yCap, z := cz + 0.07 } 45 45 0 capScale ++
    DrawLeaf { x := cx - 0.07, y := yCap, z := cz + 0.07 } 45 (-45) 0 capScale ++
    DrawLeaf { x := cx + 0.07, y := yCap, z := cz - 0.07 } 35 135 0 capScale ++
    DrawLeaf { x := cx - 0.07, y := yCap, z := cz - 0.07 } 35 (-135) 0 capScale ++
    DrawLeaf { x := cx, y := yCap + 0.04, z := cz } 90 0 0
      { x := 0.13, y := 0.04, z := 0.13 } ++
    DrawLeafDefault { x := cx + rB, y := yBottom, z := cz } 0 90 0 ++
    DrawLeafDefault { x := cx - rB, y := yBottom, z := cz } 0 (-90) 0 ++
    DrawLeafDefault { x := cx, y := yBottom, z := cz + rB } 10 0 0 ++
    DrawLeafDefault { x := cx, y := yBottom, z := cz - rB } (-10) 180 0 ++
    DrawLeafDefault { x := cx + 0.14, y := yBottom, z := cz + 0.14 } 8 45 0 ++
    DrawLeafDefault { x := cx - 0.14, y := yBottom, z := cz + 0.14 } 8 (-45) 0 ++
    DrawLeafDefault { x := cx + rM, y := yMid, z := cz + 0.02 } 5 80 0 ++
    DrawLeafDefault { x := cx - rM, y := yMid, z := cz + 0.02 } 5 (-80) 0 ++
    DrawLeafDefault { x := cx + 0.02, y := yMid, z := cz + rM } 12 0 0 ++
    DrawLeafDefault { x := cx - 0.02, y := yMid, z := cz - rM } (-8) 180 0 ++
    DrawLeafDefault { x := cx, y := yMid + 0.01, z := cz } 25 20 0 ++
    DrawLeaf { x := cx + rT, y := yTop, z := cz } 28 90 0 leafScaleTop ++
    DrawLeaf { x := cx - rT, y := yTop, z := cz } 28 (-90) 0 leafScaleTop ++
    DrawLeaf { x := cx, y := yTop, z := cz + rT } 30 0 0 leafScaleTop ++
    DrawLeaf { x := cx, y := yTop, z := cz - rT } 22 180 0 leafScaleTop

/-- The objects drawn before the monitor. -/
def beforeMonitor : List Call :=
  floor ++ desk ++ keyboardBase ++ keyboardTop ++ monitorStand

/-- The objects drawn after the monitor. -/
def afterMonitor : List Call :=
  mousepad ++ mouse ++ pot ++ soil ++ stem ++ leaves

/-- The statements of `RenderScene` after the call of `SetupSceneLights`. -/
def calls : List Call :=
  beforeMonitor ++ monitor ++ afterMonitor

end RenderScene

/-- The function `SceneManager::RenderScene`. -/
def RenderScene (F : glm.MathFunctions) (m_textureIDs : List TEXTURE_INFO)
    (m_objectMaterials : List OBJECT_MATERIAL) (material₀ : OBJECT_MATERIAL)
    (st : RenderState) : Option RenderState :=
  match SetupSceneLights F m_textureIDs m_objectMaterials material₀ st with
  | some st' => Call.run F m_textureIDs m_objectMaterials material₀ RenderScene.calls st'
  | none => none

end SceneManager

/-! ## View controller -/

namespace ViewManager

/-- Modelled from the spec: the class `Camera` is declared in `camera.h`, which
is not among the sources.  The camera state is position, front vector, up vector,
zoom and movement speed, the members the view manager touches. -/
structure Camera where
  Position : vec3
  Front : vec3
  Up : vec3
  Zoom : float
  MovementSpeed : float
deriving DecidableEq

/-- The directions of `Camera::ProcessKeyboard` used in `ProcessKeyboardEvents`. -/
inductive Camera_Movement where
  | FORWARD
  | BACKWARD
  | LEFT
  | RIGHT
deriving DecidableEq

/-- The camera as the constructor `ViewManager::ViewManager` leaves it. -/
def constructedCamera : Camera :=
  { Position := { x := 0, y := 5, z := 12 }
    Front := { x := 0, y := -1/2, z := -2 }
    Up := { x := 0, y := 1, z := 0 }
    Zoom := 80
    MovementSpeed := 20 }

/-- The function `ViewManager::Mouse_Scroll_Callback`, on the global `g_pCamera` (`none` for
`nullptr`). -/
def Mouse_Scroll_Callback (g_pCamera : Option Camera) (_xOffset yOffset : ℚ) :
    Option Camera :=
  match g_pCamera with
  | some cam =>
    let cam₁ := { cam with MovementSpeed := cam.MovementSpeed + yOffset * 2 }
    let cam₂ := if cam₁.MovementSpeed < 1 then { cam₁ with MovementSpeed := 1 } else cam₁
    let cam₃ := if cam₂.MovementSpeed > 60 then { cam₂ with MovementSpeed := 60 } else cam₂
    some cam₃
  | none => none

/-- The keys polled by one call of `ProcessKeyboardEvents`: each field tells
whether `glfwGetKey` answered `GLFW_PRESS` for that key. -/
structure Keys where
  GLFW_KEY_ESCAPE : Bool
  GLFW_KEY_W : Bool
  GLFW_KEY_S : Bool
  GLFW_KEY_A : Bool
  GLFW_KEY_D : Bool
  GLFW_KEY_Q : Bool
  GLFW_KEY_E : Bool
  GLFW_KEY_P : Bool
  GLFW_KEY_O : Bool
deriving DecidableEq

/-- The state `ProcessKeyboardEvents` reads and writes: the close flag of the
window, the camera, the global `bOrthographicProjection` and the two function
statics `pWasDown` and `oWasDown`. -/
structure State where
  windowShouldClose : Bool
  camera : Camera
  bOrthographicProjection : Bool
  pWasDown : Bool
  oWasDown : Bool
deriving DecidableEq

/-- The state at program start, with the camera of the constructor. -/
def initialState : State :=
  { windowShouldClose := false
    camera := constructedCamera
    bOrthographicProjection := false
    pWasDown := false
    oWasDown := false }

/-- The assignment `Position += Up * k` on the camera. -/
def moveUp (cam : Camera) (k : float) : Camera :=
  { cam with Position :=
      { x := cam.Position.x + cam.Up.x * k
        y := cam.Position.y + cam.Up.y * k
        z := cam.Position.z + cam.Up.z * k } }

/-- The assignment `Position -= Up * k` on the camera. -/
def moveDown (cam : Camera) (k : float) : Camera :=
  { cam with Position :=
      { x := cam.Position.x - cam.Up.x * k
        y := cam.Position.y - cam.Up.y * k
        z := cam.Position.z - cam.Up.z * k } }

/-- The function `ViewManager::ProcessKeyboardEvents`.  `ProcessKeyboard` stands for
`Camera::ProcessKeyboard` (declared in `camera.h`), `gDeltaTime` for the global
of that name as the caller left it, `keys` for the answers of `glfwGetKey`. -/
def ProcessKeyboardEvents (ProcessKeyboard : Camera → Camera_Movement → float → Camera)
    (s : State) (gDeltaTime : float) (keys : Keys) : State :=
  let s := if keys.GLFW_KEY_ESCAPE then { s with windowShouldClose := true } else s
  let s := if keys.GLFW_KEY_W then
    { s with camera := ProcessKeyboard s.camera .FORWARD gDeltaTime } else s
  let s := if keys.GLFW_KEY_S then
    { s with camera := ProcessKeyboard s.camera .BACKWARD gDeltaTime } else s
  let s := if keys.GLFW_KEY_A then
    { s with camera := ProcessKeyboard s.camera .LEFT gDeltaTime } else s
  let s := if keys.GLFW_KEY_D then
    { s with camera := ProcessKeyboard s.camera .RIGHT gDeltaTime } else s
  let s := if keys.GLFW_KEY_Q then
    { s with camera := moveDown s.camera (s.camera.MovementSpeed * gDeltaTime) } else s
  let s := if keys.GLFW_KEY_E then
    { s with camera := moveUp s.camera (s.camera.MovementSpeed * gDeltaTime) } else s
  let pDown := keys.GLFW_KEY_P
  let oDown := keys.GLFW_KEY_O
  let s := if pDown && !s.pWasDown then { s with bOrthographicProjection := false } else s
  let s := if oDown && !s.oWasDown then { s with bOrthographicProjection := true } else s
  { s with pWasDown := pDown, oWasDown := oDown }

end ViewManager


/-! ## Vocabulary of the statements -/

/-- In the list `l`, `i` is the lowest index whose entry satisfies `p`, and `e`
is the entry at that index. -/
def FirstAt {α : Type} (l : List α) (p : α → Prop) (i : ℕ) (e : α) : Prop :=
  l[i]? = some e ∧ p e ∧ ∀ j e', j < i → l[j]? = some e' → ¬ p e'

/-- The three materials that `PrepareScene` registers, in its order. -/
def sceneMaterials : List OBJECT_MATERIAL :=
  [{ tag := "woodMat", diffuseColor := { x := 1, y := 1, z := 1 }
     specularColor := { x := 1/5, y := 1/5, z := 1/5 }, shininess := 16 },
   { tag := "plasticMat", diffuseColor := { x := 1, y := 1, z := 1 }
     specularColor := { x := 3/20, y := 3/20, z := 3/20 }, shininess := 8 },
   { tag := "keyboardMat", diffuseColor := { x := 1, y := 1, z := 1 }
     specularColor := { x := 1/2, y := 1/2, z := 1/2 }, shininess := 48 }]

/-- A material record with every field blank. -/
def blankMaterial : OBJECT_MATERIAL :=
  { tag := "", diffuseColor := { x := 0, y := 0, z := 0 }
    specularColor := { x := 0, y := 0, z := 0 }, shininess := 0 }

namespace SceneManager

/-- Whether a load registers a texture: the image decodes and has 3 or 4
channels. -/
def loadSucceeds (image : Option Image) : Bool :=
  match image with
  | some img => decide (img.colorChannels = 3 ∨ img.colorChannels = 4)
  | none => false

/-- The nine loads of `PrepareScene`, file and tag, in the order of the source. -/
def sceneLoads : List (String × String) :=
  [("textures/Wood.jpg", "wood"), ("textures/Plastic.jpg", "plastic"),
   ("textures/Keyboard.jpg", "keyboard"), ("textures/monitorscreen.jpg", "monitorscreen"),
   ("textures/DarkGrey.jpg", "DarkGrey"), ("textures/Mouse.png", "mouse"),
   ("textures/logitech.jpg", "logitech"), ("textures/Plant.jpg", "plant"),
   ("textures/Pot.jpg", "pot")]

/-- A scene manager as its constructor leaves it. -/
def constructedScene : SceneState :=
  { textures := { m_textureIDs := [], glCalls := [] }
    m_objectMaterials := []
    meshCalls := [] }

/-- Answers of the collaborators in which every file decodes to a 3-channel
image of 64 by 64 and the backend hands out the name 7. -/
def plainAnswers (_filename : String) : LoadAnswer :=
  { image := some { width := 64, height := 64, colorChannels := 3 }
    textureID := 7
    maxAniso := 16 }

/-- Answers of the collaborators in which `textures/Mouse.png` does not decode,
`textures/Plant.jpg` decodes to a 1-channel image, and every other file decodes
to a 3-channel image. -/
def faultyAnswers (filename : String) : LoadAnswer :=
  if filename = "textures/Mouse.png" then
    { image := none, textureID := 7, maxAniso := 16 }
  else if filename = "textures/Plant.jpg" then
    { image := some { width := 64, height := 64, colorChannels := 1 }
      textureID := 7, maxAniso := 16 }
  else plainAnswers filename

/-- The value a uniform holds at a draw. -/
def DrawCall.uniform (d : DrawCall) (name : String) : Option UniformValue :=
  d.shader.bind (fun sm => sm.value name)

/-- The meshes of the draws among a sequence of statements, in order. -/
def drawMeshes : List Call → List MeshCall
  | [] => []
  | .draw mesh :: rest => mesh :: drawMeshes rest
  | _ :: rest => drawMeshes rest

/-- The tags handed to `SetShaderTexture` in a sequence of statements. -/
def textureTags : List Call → List String
  | [] => []
  | .SetShaderTexture textureTag :: rest => textureTag :: textureTags rest
  | _ :: rest => textureTags rest

/-- The tags handed to `SetShaderMaterial` in a sequence of statements. -/
def materialTags : List Call → List String
  | [] => []
  | .SetShaderMaterial materialTag :: rest => materialTag :: materialTags rest
  | _ :: rest => materialTags rest

/-- The draws that a segment `seg` of the statements issues, cut out of the list
of all draws: `pre` is the sequence of statements before the segment. -/
def segmentDraws (draws : List DrawCall) (pre seg : List Call) : List DrawCall :=
  (draws.drop (drawMeshes pre).length).take (drawMeshes seg).length

/-- The uniform names that `SetTransformations` and `SetShaderMaterial` assign
are left out of the bookkeeping below. -/
def Tracked (name : String) : Prop :=
  name ≠ "model" ∧ name ≠ "material.diffuseColor" ∧ name ≠ "material.specularColor" ∧
    name ≠ "material.shininess"

/-- The value of the uniform `name` after one statement on a sink, from its value
before, for a name that is `Tracked`. -/
def Call.after (m_textureIDs : List TEXTURE_INFO) (name : String) :
    Call → Option UniformValue → Option UniformValue
  | .SetTransformations _ _ _ _ _, cur => cur
  | .SetShaderMaterial _, cur => cur
  | .SetShaderColor r g b a, cur =>
    if g_ColorValueName = name then
      some (.setVec4Value { r := r, g := g, b := b, a := a })
    else if g_UseTextureName = name then some (.setIntValue 0)
    else cur
  | .SetShaderTexture textureTag, cur =>
    if g_TextureValueName = name then
      some (.setSampler2DValue (FindTextureSlot m_textureIDs textureTag))
    else if g_UseTextureName = name then some (.setIntValue 1)
    else cur
  | .SetTextureUVScale u v, cur =>
    if "UVscale" = name then some (.setVec2Value { x := u, y := v }) else cur
  | .setBoolValue n value, cur => if n = name then some (.setBoolValue value) else cur
  | .setIntValue n value, cur => if n = name then some (.setIntValue value) else cur
  | .setVec3Value n x y z, cur =>
    if n = name then some (.setVec3Value { x := x, y := y, z := z }) else cur
  | .draw _, cur => cur

/-- The value of the uniform `name` after a sequence of statements. -/
def uniformAfter (m_textureIDs : List TEXTURE_INFO) (name : String) :
    List Call → Option UniformValue → Option UniformValue
  | [], cur => cur
  | c :: rest, cur => uniformAfter m_textureIDs name rest (c.after m_textureIDs name cur)

/-- The draws of a sequence of statements, each with the value the uniform
`name` holds when it is issued. -/
def uniformAtDraws (m_textureIDs : List TEXTURE_INFO) (name : String) :
    List Call → Option UniformValue → List (MeshCall × Option UniformValue)
  | [], _ => []
  | .draw mesh :: rest, cur => (mesh, cur) :: uniformAtDraws m_textureIDs name rest cur
  | c :: rest, cur =>
    uniformAtDraws m_textureIDs name rest (c.after m_textureIDs name cur)

end SceneManager

namespace ViewManager

/-- One call of `ProcessKeyboardEvents` as the frame loop makes it: the value of
`gDeltaTime` at the call and the keys polled. -/
structure Frame where
  gDeltaTime : float
  keys : Keys
deriving DecidableEq

/-- The state after `ProcessKeyboardEvents` has run once per frame, in order. -/
def runFrames (ProcessKeyboard : Camera → Camera_Movement → float → Camera)
    (s : State) (frames : List Frame) : State :=
  frames.foldl (fun s f => ProcessKeyboardEvents ProcessKeyboard s f.gDeltaTime f.keys) s

/-- Whether the perspective key P is down in frame `k` (counted from 0). -/
def pDownAt (frames : List Frame) (k : ℕ) : Bool :=
  match frames[k]? with
  | some f => f.keys.GLFW_KEY_P
  | none => false

/-- Whether the orthographic key O is down in frame `k` (counted from 0). -/
def oDownAt (frames : List Frame) (k : ℕ) : Bool :=
  match frames[k]? with
  | some f => f.keys.GLFW_KEY_O
  | none => false

/-- Frame `k` holds a rising edge of P: down in frame `k` and not down in the
frame before; before frame 0 no key is down. -/
def pRisingAt (frames : List Frame) : ℕ → Bool
  | 0 => pDownAt frames 0
  | k + 1 => pDownAt frames (k + 1) && !pDownAt frames k

/-- Frame `k` holds a rising edge of O. -/
def oRisingAt (frames : List Frame) : ℕ → Bool
  | 0 => oDownAt frames 0
  | k + 1 => oDownAt frames (k + 1) && !oDownAt frames k

/-- The projection flag once the first `k` frames have been processed from the
initial state: true for Orthographic, false for Perspective. -/
def orthoAfter (ProcessKeyboard : Camera → Camera_Movement → float → Camera)
    (frames : List Frame) (k : ℕ) : Bool :=
  (runFrames ProcessKeyboard initialState (frames.take k)).bOrthographicProjection

/-- The clamp of the specification: `x` limited to the interval from `lo` to
`hi`. -/
def clamp (x lo hi : ℚ) : ℚ := max lo (min x hi)

/-- The camera after the scroll callback has run once per event, in order; an
event is the pair of `xOffset` and `yOffset`. -/
def scrollAll (g_pCamera : Option Camera) (events : List (ℚ × ℚ)) : Option Camera :=
  events.foldl (fun c ev => Mouse_Scroll_Callback c ev.1 ev.2) g_pCamera

/-- The sum of the scroll deltas (the `yOffset` components) of the events. -/
def deltaSum (events : List (ℚ × ℚ)) : ℚ := (events.map Prod.snd).sum

/-- A stand-in for `Camera::ProcessKeyboard` that leaves the camera alone. -/
def keepCamera (cam : Camera) (_direction : Camera_Movement) (_deltaTime : float) : Camera :=
  cam

/-- A frame in which of the polled keys exactly P and O may be down. -/
def frameWith (p o : Bool) : Frame :=
  { gDeltaTime := 1 / 60
    keys :=
      { GLFW_KEY_ESCAPE := false, GLFW_KEY_W := false, GLFW_KEY_S := false
        GLFW_KEY_A := false, GLFW_KEY_D := false, GLFW_KEY_Q := false
        GLFW_KEY_E := false, GLFW_KEY_P := p, GLFW_KEY_O := o } }

/-- Five frames: P pressed alone, O pressed while P is held, both held, both
held, both released. -/
def heldFrames : List Frame :=
  [frameWith true false, frameWith true true, frameWith true true, frameWith true true,
   frameWith false false]

/-- Scroll events that run the speed into the upper limit: twenty-one notches
up, then one notch down. -/
def overshootEvents : List (ℚ × ℚ) := List.replicate 21 (0, 1) ++ [(0, -1)]

/-- Scroll events whose partial sums stay inside the limits before the last
event. -/
def gentleEvents : List (ℚ × ℚ) := [(0, 1), (0, 1), (0, -3), (0, 30)]

end ViewManager

/-! ## Lemmas on the lookup loops -/

namespace SceneManager

theorem FindTextureSlot_loop_scan (texs : List TEXTURE_INFO) (tag : String) (i : ℕ)
    (e : TEXTURE_INFO) (hi : texs[i]? = some e) (he : e.tag = tag) :
    ∀ (n index : ℕ) (slot : ℤ), i = index + n →
      (∀ j e', index ≤ j → j < i → texs[j]? = some e' → e'.tag ≠ tag) →
      FindTextureSlot.loop texs tag slot index false = (i : ℤ) := by
  have hlen : i < texs.length := (List.getElem?_eq_some_iff.mp hi).1
  have hget : texs[i] = e := (List.getElem?_eq_some_iff.mp hi).2
  intro n
  induction n with
  | zero =>
    intro index slot hidx _
    subst hidx
    rw [FindTextureSlot.loop, dif_pos ⟨hlen, rfl⟩]
    simp only [Nat.add_zero] at hget
    rw [if_pos (by rw [hget]; exact he), FindTextureSlot.loop, dif_neg (by simp)]
  | succ n ih =>
    intro index slot hidx hbefore
    have hlt : index < texs.length := by omega
    rw [FindTextureSlot.loop, dif_pos ⟨hlt, rfl⟩]
    have hne : texs[index].tag ≠ tag :=
      hbefore index texs[index] (le_refl _) (by omega) (List.getElem?_eq_getElem hlt)
    rw [if_neg hne]
    exact ih (index + 1) slot (by omega) (fun j e' h1 h2 => hbefore j e' (by omega) h2)

theorem FindTextureSlot_loop_miss (texs : List TEXTURE_INFO) (tag : String) :
    ∀ (n index : ℕ) (slot : ℤ), texs.length ≤ index + n →
      (∀ j e', index ≤ j → texs[j]? = some e' → e'.tag ≠ tag) →
      FindTextureSlot.loop texs tag slot index false = slot := by
  intro n
  induction n with
  | zero =>
    intro index slot hidx _
    rw [FindTextureSlot.loop, dif_neg (by simp; omega)]
  | succ n ih =>
    intro index slot hidx hall
    by_cases hlt : index < texs.length
    · rw [FindTextureSlot.loop, dif_pos ⟨hlt, rfl⟩]
      have hne : texs[index].tag ≠ tag :=
        hall index texs[index] (le_refl _) (List.getElem?_eq_getElem hlt)
      rw [if_neg hne]
      exact ih (index + 1) slot (by omega) (fun j e' h1 => hall j e' (by omega))
    · rw [FindTextureSlot.loop, dif_neg (by simp; omega)]

theorem FindTextureID_loop_scan (texs : List TEXTURE_INFO) (tag : String) (i : ℕ)
    (e : TEXTURE_INFO) (hi : texs[i]? = some e) (he : e.tag = tag) :
    ∀ (n index : ℕ) (textureID : ℤ), i = index + n →
      (∀ j e', index ≤ j → j < i → texs[j]? = some e' → e'.tag ≠ tag) →
      FindTextureID.loop texs tag textureID index false = GLuint_to_int e.ID := by
  have hlen : i < texs.length := (List.getElem?_eq_some_iff.mp hi).1
  have hget : texs[i] = e := (List.getElem?_eq_some_iff.mp hi).2
  intro n
  induction n with
  | zero =>
    intro index textureID hidx _
    subst hidx
    rw [FindTextureID.loop, dif_pos ⟨hlen, rfl⟩]
    simp only [Nat.add_zero] at hget
    rw [if_pos (by rw [hget]; exact he), FindTextureID.loop, dif_neg (by simp), hget]
  | succ n ih =>
    intro index textureID hidx hbefore
    have hlt : index < texs.length := by omega
    rw [FindTextureID.loop, dif_pos ⟨hlt, rfl⟩]
    have hne : texs[index].tag ≠ tag :=
      hbefore index texs[index] (le_refl _) (by omega) (List.getElem?_eq_getElem hlt)
    rw [if_neg hne]
    exact ih (index + 1) textureID (by omega) (fun j e' h1 h2 => hbefore j e' (by omega) h2)

theorem FindTextureID_loop_miss (texs : List TEXTURE_INFO) (tag : String) :
    ∀ (n index : ℕ) (textureID : ℤ), texs.length ≤ index + n →
      (∀ j e', index ≤ j → texs[j]? = some e' → e'.tag ≠ tag) →
      FindTextureID.loop texs tag textureID index false = textureID := by
  intro n
  induction n with
  | zero =>
    intro index textureID hidx _
    rw [FindTextureID.loop, dif_neg (by simp; omega)]
  | succ n ih =>
    intro index textureID hidx hall
    by_cases hlt : index < texs.length
    · rw [FindTextureID.loop, dif_pos ⟨hlt, rfl⟩]
      have hne : texs[index].tag ≠ tag :=
        hall index texs[index] (le_refl _) (List.getElem?_eq_getElem hlt)
      rw [if_neg hne]
      exact ih (index + 1) textureID (by omega) (fun j e' h1 => hall j e' (by omega))
    · rw [FindTextureID.loop, dif_neg (by simp; omega)]

theorem FindMaterial_loop_scan (mats : List OBJECT_MATERIAL) (tag : String) (i : ℕ)
    (e : OBJECT_MATERIAL) (hi : mats[i]? = some e) (he : e.tag = tag) :
    ∀ (n index : ℕ) (material : OBJECT_MATERIAL), i = index + n →
      (∀ j e', index ≤ j → j < i → mats[j]? = some e' → e'.tag ≠ tag) →
      FindMaterial.loop mats tag material index false =
        (true, { material with
                 diffuseColor := e.diffuseColor
                 specularColor := e.specularColor
                 shininess := e.shininess }) := by
  have hlen : i < mats.length := (List.getElem?_eq_some_iff.mp hi).1
  have hget : mats[i] = e := (List.getElem?_eq_some_iff.mp hi).2
  intro n
  induction n with
  | zero =>
    intro index material hidx _
    subst hidx
    rw [FindMaterial.loop, dif_pos ⟨hlen, rfl⟩]
    simp only [Nat.add_zero] at hget
    rw [if_pos (by rw [hget]; exact he), FindMaterial.loop, dif_neg (by simp), hget]
  | succ n ih =>
    intro index material hidx hbefore
    have hlt : index < mats.length := by omega
    rw [FindMaterial.loop, dif_pos ⟨hlt, rfl⟩]
    have hne : mats[index].tag ≠ tag :=
      hbefore index mats[index] (le_refl _) (by omega) (List.getElem?_eq_getElem hlt)
    rw [if_neg hne]
    exact ih (index + 1) material (by omega) (fun j e' h1 h2 => hbefore j e' (by omega) h2)

theorem FindMaterial_loop_miss (mats : List OBJECT_MATERIAL) (tag : String) :
    ∀ (n index : ℕ) (material : OBJECT_MATERIAL), mats.length ≤ index + n →
      (∀ j e', index ≤ j → mats[j]? = some e' → e'.tag ≠ tag) →
      FindMaterial.loop mats tag material index false = (false, material) := by
  intro n
  induction n with
  | zero =>
    intro index material hidx _
    rw [FindMaterial.loop, dif_neg (by simp; omega)]
  | succ n ih =>
    intro index material hidx hall
    by_cases hlt : index < mats.length
    · rw [FindMaterial.loop, dif_pos ⟨hlt, rfl⟩]
      have hne : mats[index].tag ≠ tag :=
        hall index mats[index] (le_refl _) (List.getElem?_eq_getElem hlt)
      rw [if_neg hne]
      exact ih (index + 1) material (by omega) (fun j e' h1 => hall j e' (by omega))
    · rw [FindMaterial.loop, dif_neg (by simp; omega)]

/-- Either some entry satisfies a decidable property, and then there is a lowest
index carrying one, or no entry does. -/
theorem exists_firstAt_or_none {α : Type} (l : List α) (p : α → Prop) [DecidablePred p] :
    (∃ i e, FirstAt l p i e) ∨ (∀ (j : ℕ) e', l[j]? = some e' → ¬ p e') := by
  classical
  by_cases hex : ∃ i : ℕ, ∃ e, l[i]? = some e ∧ p e
  · left
    refine ⟨Nat.find hex, ?_⟩
    obtain ⟨e, h1, h2⟩ := Nat.find_spec hex
    refine ⟨e, h1, h2, ?_⟩
    intro j e' hj hje hp
    exact Nat.find_min hex hj ⟨e', hje, hp⟩
  · right
    intro j e' hje hp
    exact hex ⟨j, e', hje, hp⟩

/-- A lookup of a uniform after one assignment: the assigned value under the
assigned name, the earlier value under every other name. -/
theorem ShaderManager_value_set (sm : ShaderManager) (n name : String) (v : UniformValue) :
    (sm.set n v).value name = if n = name then some v else sm.value name := by
  unfold ShaderManager.value ShaderManager.set
  by_cases h : n = name
  · simp [h]
  · simp [h, List.find?_cons]

/-- The value of `FindTextureSlot` when `i` is the lowest index with the tag. -/
theorem FindTextureSlot_of_firstAt (texs : List TEXTURE_INFO) (tag : String) (i : ℕ)
    (e : TEXTURE_INFO) (h : FirstAt texs (fun t => t.tag = tag) i e) :
    FindTextureSlot texs tag = (i : ℤ) :=
  FindTextureSlot_loop_scan texs tag i e h.1 h.2.1 i 0 (-1) (by omega)
    (fun j e' _ hj hje => h.2.2 j e' hj hje)

/-- The value of `FindTextureSlot` when no entry carries the tag. -/
theorem FindTextureSlot_of_none (texs : List TEXTURE_INFO) (tag : String)
    (h : ∀ (j : ℕ) e', texs[j]? = some e' → e'.tag ≠ tag) :
    FindTextureSlot texs tag = -1 :=
  FindTextureSlot_loop_miss texs tag texs.length 0 (-1) (by omega) (fun j e' _ => h j e')

/-- The value of `FindMaterial` when `i` is the lowest index with the tag. -/
theorem FindMaterial_of_firstAt (mats : List OBJECT_MATERIAL) (tag : String)
    (material : OBJECT_MATERIAL) (i : ℕ) (e : OBJECT_MATERIAL)
    (h : FirstAt mats (fun m => m.tag = tag) i e) :
    FindMaterial mats tag material =
      (true, { material with
               diffuseColor := e.diffuseColor
               specularColor := e.specularColor
               shininess := e.shininess }) := by
  have hlen : i < mats.length := (List.getElem?_eq_some_iff.mp h.1).1
  unfold FindMaterial
  rw [if_neg (by omega)]
  exact FindMaterial_loop_scan mats tag i e h.1 h.2.1 i 0 material (by omega)
    (fun j e' _ hj hje => h.2.2 j e' hj hje)

/-- The value of `FindMaterial` when no entry carries the tag. -/
theorem FindMaterial_of_none (mats : List OBJECT_MATERIAL) (tag : String)
    (material : OBJECT_MATERIAL) (h : ∀ (j : ℕ) e', mats[j]? = some e' → e'.tag ≠ tag) :
    FindMaterial mats tag material = (false, material) := by
  unfold FindMaterial
  split
  · rfl
  · exact FindMaterial_loop_miss mats tag mats.length 0 material (by omega)
      (fun j e' _ => h j e')

/-- No entry of a list satisfies `p`, said by membership and said by index. -/
theorem forall_mem_iff_forall_getElem? {α : Type} (l : List α) (p : α → Prop) :
    (∀ e ∈ l, ¬ p e) ↔ (∀ (j : ℕ) e', l[j]? = some e' → ¬ p e') := by
  constructor
  · intro h j e' hj
    exact h e' (List.getElem?_mem hj)
  · intro h e he
    obtain ⟨j, hj⟩ := List.mem_iff_getElem?.mp he
    exact h j e hj

end SceneManager

/-! ## Theorems on the scene composer -/

open SceneManager

/-- C1: when the image decodes with 3 or 4 channels, `CreateGLTexture` returns
true and the registry afterwards is the old registry with the one entry
{new texture id, tag} appended (length plus one, earlier entries unchanged);
when decoding fails or the channel count is any other value, it returns false and
the registry, entries and length, is unchanged. -/
theorem C1_CreateGLTexture_registry (s : TextureState) (image : Option Image)
    (textureID : GLuint) (maxAniso : float) (tag : String) :
    ((∃ img, image = some img ∧ (img.colorChannels = 3 ∨ img.colorChannels = 4)) →
      (CreateGLTexture s image textureID maxAniso tag).1 = true ∧
      (CreateGLTexture s image textureID maxAniso tag).2.m_textureIDs =
        s.m_textureIDs ++ [{ ID := (textureID : ℤ), tag := tag }] ∧
      (CreateGLTexture s image textureID maxAniso tag).2.m_loadedTextures =
        s.m_loadedTextures + 1 ∧
      ∀ i : ℕ, i < s.m_loadedTextures →
        (CreateGLTexture s image textureID maxAniso tag).2.m_textureIDs[i]? =
          s.m_textureIDs[i]?) ∧
    ((image = none ∨
        ∃ img, image = some img ∧ img.colorChannels ≠ 3 ∧ img.colorChannels ≠ 4) →
      (CreateGLTexture s image textureID maxAniso tag).1 = false ∧
      (CreateGLTexture s image textureID maxAniso tag).2.m_textureIDs = s.m_textureIDs ∧
      (CreateGLTexture s image textureID maxAniso tag).2.m_loadedTextures =
        s.m_loadedTextures) := by
  constructor
  · rintro ⟨img, rfl, h3 | h4⟩
    · have happ : (CreateGLTexture s (some img) textureID maxAniso tag).2.m_textureIDs =
          s.m_textureIDs ++ [{ ID := (textureID : ℤ), tag := tag }] := by
        simp [CreateGLTexture, h3]
      refine ⟨by simp [CreateGLTexture, h3], happ, ?_, ?_⟩
      · simp [TextureState.m_loadedTextures, happ]
      · intro i hi
        rw [happ]
        exact List.getElem?_append_left hi
    · have h3 : img.colorChannels ≠ 3 := by omega
      have happ : (CreateGLTexture s (some img) textureID maxAniso tag).2.m_textureIDs =
          s.m_textureIDs ++ [{ ID := (textureID : ℤ), tag := tag }] := by
        simp [CreateGLTexture, h3, h4]
      refine ⟨by simp [CreateGLTexture, h3, h4], happ, ?_, ?_⟩
      · simp [TextureState.m_loadedTextures, happ]
      · intro i hi
        rw [happ]
        exact List.getElem?_append_left hi
  · rintro (rfl | ⟨img, rfl, h3, h4⟩)
    · simp [CreateGLTexture]
    · simp [CreateGLTexture, h3, h4, TextureState.m_loadedTextures]

/-- C1 at two loads into a registry holding one entry: a 4-channel image is
registered behind the entry, a 1-channel image is refused and the registry
stays as it was. -/
theorem C1_CreateGLTexture_registry_witness :
    (CreateGLTexture { m_textureIDs := [{ ID := 1, tag := "wood" }], glCalls := [] }
        (some { width := 64, height := 64, colorChannels := 4 }) 2 16 "mouse").2.m_textureIDs =
      [{ ID := 1, tag := "wood" }] ++ [{ ID := ((2 : ℕ) : ℤ), tag := "mouse" }] ∧
    (CreateGLTexture { m_textureIDs := [{ ID := 1, tag := "wood" }], glCalls := [] }
        (some { width := 64, height := 64, colorChannels := 1 }) 2 16 "mouse").2.m_textureIDs =
      [{ ID := 1, tag := "wood" }] :=
  ⟨((C1_CreateGLTexture_registry
      { m_textureIDs := [{ ID := 1, tag := "wood" }], glCalls := [] }
      (some { width := 64, height := 64, colorChannels := 4 }) 2 16 "mouse").1
      ⟨_, rfl, Or.inr rfl⟩).2.1,
   ((C1_CreateGLTexture_registry
      { m_textureIDs := [{ ID := 1, tag := "wood" }], glCalls := [] }
      (some { width := 64, height := 64, colorChannels := 1 }) 2 16 "mouse").2
      (Or.inr ⟨_, rfl, by decide, by decide⟩)).2.1⟩

/-- A `GLuint` below 2^31 converts to itself. -/
theorem GLuint_to_int_of_lt (v : ℤ) (h0 : 0 ≤ v) (h31 : v < 2147483648) :
    GLuint_to_int v = v := by
  unfold GLuint_to_int
  omega

/-- C2 fails as stated: when `glGenTextures` hands out the name 4294967295 for
the tag wood, the entry at index 0 carries the tag and stores 4294967295, yet
`FindTextureID` returns -1, the value it also returns for a tag never loaded. -/
theorem C2_wrapped_identifier_counterexample :
    FirstAt
      (CreateGLTexture { m_textureIDs := [], glCalls := [] }
        (some { width := 64, height := 64, colorChannels := 3 }) 4294967295 16
        "wood").2.m_textureIDs
      (fun t => t.tag = "wood") 0 { ID := 4294967295, tag := "wood" } ∧
    FindTextureSlot
      (CreateGLTexture { m_textureIDs := [], glCalls := [] }
        (some { width := 64, height := 64, colorChannels := 3 }) 4294967295 16
        "wood").2.m_textureIDs "wood" = 0 ∧
    FindTextureID
      (CreateGLTexture { m_textureIDs := [], glCalls := [] }
        (some { width := 64, height := 64, colorChannels := 3 }) 4294967295 16
        "wood").2.m_textureIDs "wood" = -1 ∧
    FindTextureID
      (CreateGLTexture { m_textureIDs := [], glCalls := [] }
        (some { width := 64, height := 64, colorChannels := 3 }) 4294967295 16
        "wood").2.m_textureIDs "wood" ≠ 4294967295 := by
  have hreg : (CreateGLTexture { m_textureIDs := [], glCalls := [] }
      (some { width := 64, height := 64, colorChannels := 3 }) 4294967295 16
      "wood").2.m_textureIDs = [{ ID := 4294967295, tag := "wood" }] := by
    simp [CreateGLTexture]
  rw [hreg]
  have hid : FindTextureID [{ ID := 4294967295, tag := "wood" }] "wood" = -1 := by
    simp [FindTextureID, FindTextureID.loop, GLuint_to_int]
  refine ⟨⟨rfl, rfl, ?_⟩, ?_, hid, ?_⟩
  · intro j e' hj
    omega
  · simp [FindTextureSlot, FindTextureSlot.loop]
  · rw [hid]
    decide

/-- C2, amended: `FindTextureSlot` returns the lowest index whose entry carries
the tag, and `FindTextureID` returns the identifier stored at that same index
converted to a 32-bit `int`, which is the identifier itself when it is below
2^31; both return -1 when no entry carries the tag. -/
theorem C2_FindTexture_first_match (texs : List TEXTURE_INFO) (tag : String) :
    (∃ i e, FirstAt texs (fun t => t.tag = tag) i e ∧
        FindTextureSlot texs tag = (i : ℤ) ∧
        FindTextureID texs tag = GLuint_to_int e.ID ∧
        (0 ≤ e.ID → e.ID < 2147483648 → FindTextureID texs tag = e.ID)) ∨
    ((∀ e ∈ texs, e.tag ≠ tag) ∧
        FindTextureSlot texs tag = -1 ∧ FindTextureID texs tag = -1) := by
  rcases exists_firstAt_or_none texs (fun t => t.tag = tag) with ⟨i, e, h⟩ | hnone
  · left
    have hid : FindTextureID texs tag = GLuint_to_int e.ID :=
      FindTextureID_loop_scan texs tag i e h.1 h.2.1 i 0 (-1) (by omega)
        (fun j e' _ hj hje => h.2.2 j e' hj hje)
    refine ⟨i, e, h, FindTextureSlot_of_firstAt texs tag i e h, hid, ?_⟩
    intro h0 h31
    rw [hid, GLuint_to_int_of_lt e.ID h0 h31]
  · right
    refine ⟨(forall_mem_iff_forall_getElem? texs _).mpr hnone,
      FindTextureSlot_of_none texs tag hnone, ?_⟩
    exact FindTextureID_loop_miss texs tag texs.length 0 (-1) (by omega)
      (fun j e' _ => hnone j e')

/-- C3: `FindMaterial` returns not-found and leaves the output record unchanged
when the registry is empty or no entry carries the tag; when some entry carries
the tag there is a first such entry, the result is found, and the diffuse
colour, specular colour and shininess of the output are exactly those stored in
that first entry. -/
theorem C3_FindMaterial (mats : List OBJECT_MATERIAL) (tag : String)
    (material : OBJECT_MATERIAL) :
    ((mats = [] ∨ ∀ e ∈ mats, e.tag ≠ tag) →
      FindMaterial mats tag material = (false, material)) ∧
    ((∃ e ∈ mats, e.tag = tag) →
      ∃ i e, FirstAt mats (fun m => m.tag = tag) i e ∧
        (FindMaterial mats tag material).1 = true ∧
        (FindMaterial mats tag material).2.diffuseColor = e.diffuseColor ∧
        (FindMaterial mats tag material).2.specularColor = e.specularColor ∧
        (FindMaterial mats tag material).2.shininess = e.shininess) := by
  constructor
  · intro h
    apply FindMaterial_of_none
    apply (forall_mem_iff_forall_getElem? mats (fun m => m.tag = tag)).mp
    rcases h with rfl | h
    · simp
    · exact h
  · rintro ⟨e₀, he₀, htag⟩
    rcases exists_firstAt_or_none mats (fun m => m.tag = tag) with ⟨i, e, h⟩ | hnone
    · refine ⟨i, e, h, ?_⟩
      rw [FindMaterial_of_firstAt mats tag material i e h]
      exact ⟨rfl, rfl, rfl, rfl⟩
    · exact absurd htag
        ((forall_mem_iff_forall_getElem? mats (fun m => m.tag = tag)).mpr hnone e₀ he₀)

/-- C3 on the materials of the scene: a tag that no material carries is not
found and the record comes back blank; the tag plasticMat is found. -/
theorem C3_FindMaterial_witness :
    FindMaterial sceneMaterials "glassMat" blankMaterial = (false, blankMaterial) ∧
    ∃ i e, FirstAt sceneMaterials (fun m => m.tag = "plasticMat") i e ∧
      (FindMaterial sceneMaterials "plasticMat" blankMaterial).1 = true ∧
      (FindMaterial sceneMaterials "plasticMat" blankMaterial).2.diffuseColor =
        e.diffuseColor ∧
      (FindMaterial sceneMaterials "plasticMat" blankMaterial).2.specularColor =
        e.specularColor ∧
      (FindMaterial sceneMaterials "plasticMat" blankMaterial).2.shininess = e.shininess :=
  ⟨(C3_FindMaterial sceneMaterials "glassMat" blankMaterial).1
      (Or.inr (by decide)),
   (C3_FindMaterial sceneMaterials "plasticMat" blankMaterial).2
      ⟨_, List.mem_cons_of_mem _ (List.mem_cons_self _ _), rfl⟩⟩

/-- C5: with a shader sink in any state, `SetShaderMaterial` emits nothing and
leaves the sink exactly as it was when no entry carries the tag (the empty
registry included); when an entry carries the tag it emits exactly the three
uniforms material.diffuseColor, material.specularColor and material.shininess
with the values of the first entry carrying the tag. -/
theorem C5_SetShaderMaterial (mats : List OBJECT_MATERIAL) (sm : ShaderManager)
    (material₀ : OBJECT_MATERIAL) (tag : String) :
    ((∀ e ∈ mats, e.tag ≠ tag) →
      SetShaderMaterial mats (some sm) material₀ tag = some sm) ∧
    ((∃ e ∈ mats, e.tag = tag) →
      ∃ i e, FirstAt mats (fun m => m.tag = tag) i e ∧
        SetShaderMaterial mats (some sm) material₀ tag =
          some { uniforms := sm.uniforms ++
            [("material.diffuseColor", UniformValue.setVec3Value e.diffuseColor),
             ("material.specularColor", UniformValue.setVec3Value e.specularColor),
             ("material.shininess", UniformValue.setFloatValue e.shininess)] }) := by
  constructor
  · intro h
    have hnone := (forall_mem_iff_forall_getElem? mats (fun m => m.tag = tag)).mp h
    simp [SetShaderMaterial, FindMaterial_of_none mats tag material₀ hnone]
  · rintro ⟨e₀, he₀, htag⟩
    rcases exists_firstAt_or_none mats (fun m => m.tag = tag) with ⟨i, e, h⟩ | hnone
    · refine ⟨i, e, h, ?_⟩
      have hlen : i < mats.length := (List.getElem?_eq_some_iff.mp h.1).1
      have hpos : mats.length > 0 := by omega
      simp [SetShaderMaterial, hpos, FindMaterial_of_firstAt mats tag material₀ i e h,
        ShaderManager.set]
    · exact absurd htag
        ((forall_mem_iff_forall_getElem? mats (fun m => m.tag = tag)).mpr hnone e₀ he₀)

/-- C5 on the materials of the scene and an empty sink: a tag that no material
carries leaves the sink empty, and the tag keyboardMat emits three uniforms. -/
theorem C5_SetShaderMaterial_witness :
    SetShaderMaterial sceneMaterials (some { uniforms := [] }) blankMaterial "glassMat" =
      some { uniforms := [] } ∧
    ∃ i e, FirstAt sceneMaterials (fun m => m.tag = "keyboardMat") i e ∧
      SetShaderMaterial sceneMaterials (some { uniforms := [] }) blankMaterial
          "keyboardMat" =
        some { uniforms := [] ++
          [("material.diffuseColor", UniformValue.setVec3Value e.diffuseColor),
           ("material.specularColor", UniformValue.setVec3Value e.specularColor),
           ("material.shininess", UniformValue.setFloatValue e.shininess)] } :=
  ⟨(C5_SetShaderMaterial sceneMaterials { uniforms := [] } blankMaterial "glassMat").1
      (by decide),
   (C5_SetShaderMaterial sceneMaterials { uniforms := [] } blankMaterial "keyboardMat").2
      ⟨_, List.mem_cons_of_mem _ (List.mem_cons_of_mem _ (List.mem_cons_self _ _)), rfl⟩⟩

/-- C6: with a shader sink, `SetShaderTexture` assigns 1 (true) to the
use-texture flag and assigns to the sampler uniform the value of
`FindTextureSlot`, which is the index of the first entry with the tag, and -1
when no entry carries it; these two assignments are all it emits, so every other
uniform keeps its value. -/
theorem C6_SetShaderTexture (texs : List TEXTURE_INFO) (sm : ShaderManager)
    (tag : String) :
    ∃ sm', SetShaderTexture texs (some sm) tag = some sm' ∧
      sm'.uniforms = sm.uniforms ++
        [(g_UseTextureName, UniformValue.setIntValue 1),
         (g_TextureValueName, UniformValue.setSampler2DValue (FindTextureSlot texs tag))] ∧
      sm'.value g_UseTextureName = some (UniformValue.setIntValue 1) ∧
      sm'.value g_TextureValueName =
        some (UniformValue.setSampler2DValue (FindTextureSlot texs tag)) ∧
      (∀ name, name ≠ g_UseTextureName → name ≠ g_TextureValueName →
        sm'.value name = sm.value name) ∧
      ((∃ i e, FirstAt texs (fun t => t.tag = tag) i e ∧
          FindTextureSlot texs tag = (i : ℤ)) ∨
        ((∀ e ∈ texs, e.tag ≠ tag) ∧ FindTextureSlot texs tag = -1)) := by
  refine ⟨_, rfl, ?_, ?_, ?_, ?_, ?_⟩
  · simp [ShaderManager.set]
  · rw [ShaderManager_value_set, ShaderManager_value_set]
    simp [g_UseTextureName, g_TextureValueName]
  · rw [ShaderManager_value_set]
    simp
  · intro name h1 h2
    rw [ShaderManager_value_set, ShaderManager_value_set,
      if_neg (fun h => h2 h.symm), if_neg (fun h => h1 h.symm)]
  · rcases exists_firstAt_or_none texs (fun t => t.tag = tag) with ⟨i, e, h⟩ | hnone
    · exact Or.inl ⟨i, e, h, FindTextureSlot_of_firstAt texs tag i e h⟩
    · exact Or.inr ⟨(forall_mem_iff_forall_getElem? texs _).mpr hnone,
        FindTextureSlot_of_none texs tag hnone⟩

/-- A rotation by the angle `glm::radians(0)` about a coordinate axis is the
identity matrix, once cosine, sine and inverse square root are exact at 0, 0
and 1. -/
theorem glm_rotate_radians_zero (F : glm.MathFunctions) (hcos : F.cos 0 = 1)
    (hsin : F.sin 0 = 0) (hsqrt : F.inversesqrt 1 = 1) :
    glm.rotate F (glm.radians 0) { x := 1, y := 0, z := 0 } = 1 ∧
    glm.rotate F (glm.radians 0) { x := 0, y := 1, z := 0 } = 1 ∧
    glm.rotate F (glm.radians 0) { x := 0, y := 0, z := 1 } = 1 := by
  refine ⟨?_, ?_, ?_⟩ <;>
  · ext i j
    fin_cases i <;> fin_cases j <;>
      simp [glm.rotate, glm.radians, glm.normalize, hcos, hsin, hsqrt, Matrix.vecHead,
        Matrix.vecTail]

/-- The translation to the origin is the identity matrix. -/
theorem glm_translate_zero : glm.translate { x := 0, y := 0, z := 0 } = 1 := by
  ext i j
  fin_cases i <;> fin_cases j <;> simp [glm.translate, Matrix.vecHead, Matrix.vecTail]

/-- C4: with a shader sink, `SetTransformations` emits exactly one uniform, named
model, whose value is translate(T) · rotateZ(radians z) · rotateY(radians y) ·
rotateX(radians x) · scale(S); with all rotations zero and T the origin the
emitted matrix is scale(S), given that cosine, sine and inverse square root are
exact at 0, 0 and 1. -/
theorem C4_SetTransformations (F : glm.MathFunctions) (sm : ShaderManager) (S : vec3)
    (x y z : float) (T : vec3) :
    SetTransformations F (some sm) S x y z T =
      some { uniforms := sm.uniforms ++
        [("model", UniformValue.setMat4Value
          (glm.translate T *
            glm.rotate F (glm.radians z) { x := 0, y := 0, z := 1 } *
            glm.rotate F (glm.radians y) { x := 0, y := 1, z := 0 } *
            glm.rotate F (glm.radians x) { x := 1, y := 0, z := 0 } *
            glm.scale S))] } ∧
    (F.cos 0 = 1 → F.sin 0 = 0 → F.inversesqrt 1 = 1 →
      SetTransformations F (some sm) S 0 0 0 { x := 0, y := 0, z := 0 } =
        some { uniforms := sm.uniforms ++
          [("model", UniformValue.setMat4Value (glm.scale S))] }) := by
  refine ⟨rfl, ?_⟩
  intro hcos hsin hsqrt
  obtain ⟨hx, hy, hz⟩ := glm_rotate_radians_zero F hcos hsin hsqrt
  simp only [SetTransformations, hx, hy, hz, glm_translate_zero, one_mul,
    ShaderManager.set, g_ModelName]

/-- C4 at the floor plane of the scene (scale (20, 1, 10), no rotation, at the
origin), with polynomial stand-ins for the math functions. -/
theorem C4_SetTransformations_witness :
    SetTransformations
        { cos := fun a => 1 - a * a / 2, sin := fun a => a, inversesqrt := fun a => (3 - a) / 2 }
        (some { uniforms := [] }) { x := 20, y := 1, z := 10 } 0 0 0
        { x := 0, y := 0, z := 0 } =
      some { uniforms :=
        [("model", UniformValue.setMat4Value (glm.scale { x := 20, y := 1, z := 10 }))] } :=
  (C4_SetTransformations
    { cos := fun a => 1 - a * a / 2, sin := fun a => a, inversesqrt := fun a => (3 - a) / 2 }
    { uniforms := [] } { x := 20, y := 1, z := 10 } 0 0 0 { x := 0, y := 0, z := 0 }).2
    (by norm_num) (by norm_num) (by norm_num)

/-! ## Theorems on the view controller -/

open ViewManager

/-- The projection flag and the latches after one call of
`ProcessKeyboardEvents`, from the state before and the keys P and O. -/
theorem ProcessKeyboardEvents_projection
    (PK : Camera → Camera_Movement → float → Camera) (s : State) (dt : float)
    (keys : Keys) :
    (ProcessKeyboardEvents PK s dt keys).bOrthographicProjection =
      (if (keys.GLFW_KEY_O && !s.oWasDown) = true then true
       else if (keys.GLFW_KEY_P && !s.pWasDown) = true then false
       else s.bOrthographicProjection) ∧
    (ProcessKeyboardEvents PK s dt keys).pWasDown = keys.GLFW_KEY_P ∧
    (ProcessKeyboardEvents PK s dt keys).oWasDown = keys.GLFW_KEY_O := by
  obtain ⟨esc, w, s', a, d, q, e, p, o⟩ := keys
  unfold ProcessKeyboardEvents
  lift_lets
  intro s1 s2 s3 s4 s5 s6 s7 pDown oDown s8 s9
  have h1 : s1.bOrthographicProjection = s.bOrthographicProjection ∧
      s1.pWasDown = s.pWasDown ∧ s1.oWasDown = s.oWasDown := by
    simp only [s1]; split <;> exact ⟨rfl, rfl, rfl⟩
  have h2 : s2.bOrthographicProjection = s1.bOrthographicProjection ∧
      s2.pWasDown = s1.pWasDown ∧ s2.oWasDown = s1.oWasDown := by
    simp only [s2]; split <;> exact ⟨rfl, rfl, rfl⟩
  have h3 : s3.bOrthographicProjection = s2.bOrthographicProjection ∧
      s3.pWasDown = s2.pWasDown ∧ s3.oWasDown = s2.oWasDown := by
    simp only [s3]; split <;> exact ⟨rfl, rfl, rfl⟩
  have h4 : s4.bOrthographicProjection = s3.bOrthographicProjection ∧
      s4.pWasDown = s3.pWasDown ∧ s4.oWasDown = s3.oWasDown := by
    simp only [s4]; split <;> exact ⟨rfl, rfl, rfl⟩
  have h5 : s5.bOrthographicProjection = s4.bOrthographicProjection ∧
      s5.pWasDown = s4.pWasDown ∧ s5.oWasDown = s4.oWasDown := by
    simp only [s5]; split <;> exact ⟨rfl, rfl, rfl⟩
  have h6 : s6.bOrthographicProjection = s5.bOrthographicProjection ∧
      s6.pWasDown = s5.pWasDown ∧ s6.oWasDown = s5.oWasDown := by
    simp only [s6]; split <;> exact ⟨rfl, rfl, rfl⟩
  have h7 : s7.bOrthographicProjection = s6.bOrthographicProjection ∧
      s7.pWasDown = s6.pWasDown ∧ s7.oWasDown = s6.oWasDown := by
    simp only [s7]; split <;> exact ⟨rfl, rfl, rfl⟩
  have hb : s7.bOrthographicProjection = s.bOrthographicProjection := by
    rw [h7.1, h6.1, h5.1, h4.1, h3.1, h2.1, h1.1]
  have hp : s7.pWasDown = s.pWasDown := by
    rw [h7.2.1, h6.2.1, h5.2.1, h4.2.1, h3.2.1, h2.2.1, h1.2.1]
  have ho : s7.oWasDown = s.oWasDown := by
    rw [h7.2.2, h6.2.2, h5.2.2, h4.2.2, h3.2.2, h2.2.2, h1.2.2]
  clear h1 h2 h3 h4 h5 h6 h7
  clear_value s7
  simp only [s9, s8, pDown, oDown]
  cases p <;> cases o <;> cases hpw : s.pWasDown <;> cases how : s.oWasDown <;>
    simp [hb, hp, ho, hpw, how]

/-- Processing one more frame of a list is one more call of
`ProcessKeyboardEvents`. -/
theorem runFrames_take_succ (PK : Camera → Camera_Movement → float → Camera) (s : State)
    (frames : List Frame) (k : ℕ) (f : Frame) (hf : frames[k]? = some f) :
    runFrames PK s (frames.take (k + 1)) =
      ProcessKeyboardEvents PK (runFrames PK s (frames.take k)) f.gDeltaTime f.keys := by
  rw [List.take_succ, hf]
  simp [runFrames, List.foldl_append]

/-- The latches after `k` frames hold the keys of frame `k - 1`, and are false
before the first frame. -/
theorem runFrames_latches (PK : Camera → Camera_Movement → float → Camera)
    (frames : List Frame) (k : ℕ) (hk : k ≤ frames.length) :
    (runFrames PK initialState (frames.take k)).pWasDown =
        (match k with
         | 0 => false
         | j + 1 => pDownAt frames j) ∧
    (runFrames PK initialState (frames.take k)).oWasDown =
        (match k with
         | 0 => false
         | j + 1 => oDownAt frames j) := by
  cases k with
  | zero => simp [runFrames, initialState]
  | succ j =>
    have hj : j < frames.length := by omega
    have hf : frames[j]? = some frames[j] := List.getElem?_eq_getElem hj
    rw [runFrames_take_succ PK initialState frames j frames[j] hf]
    have h := ProcessKeyboardEvents_projection PK
      (runFrames PK initialState (frames.take j)) frames[j].gDeltaTime frames[j].keys
    simp only [pDownAt, oDownAt, hf]
    exact ⟨h.2.1, h.2.2⟩

/-- The projection flag after frame `k`: Orthographic on a rising edge of O,
otherwise Perspective on a rising edge of P, otherwise as before. -/
theorem orthoAfter_succ (PK : Camera → Camera_Movement → float → Camera)
    (frames : List Frame) (k : ℕ) (hk : k < frames.length) :
    orthoAfter PK frames (k + 1) =
      (if oRisingAt frames k = true then true
       else if pRisingAt frames k = true then false
       else orthoAfter PK frames k) := by
  have hf : frames[k]? = some frames[k] := List.getElem?_eq_getElem hk
  have hl := runFrames_latches PK frames k (le_of_lt hk)
  have h := (ProcessKeyboardEvents_projection PK
    (runFrames PK initialState (frames.take k)) frames[k].gDeltaTime frames[k].keys).1
  unfold orthoAfter
  rw [runFrames_take_succ PK initialState frames k frames[k] hf, h, hl.1, hl.2]
  cases k with
  | zero => simp [oRisingAt, pRisingAt, oDownAt, pDownAt, hf]
  | succ j => simp [oRisingAt, pRisingAt, oDownAt, pDownAt, hf]

/-- C7: along every sequence of frames processed from the initial state, the
projection mode changes in frame k only if that frame holds a rising edge of the
corresponding key (O for a change to Orthographic, P for a change to
Perspective); and once the mode is Orthographic it stays Orthographic through
every later frame that holds no rising edge of P, whatever keys are held. -/
theorem C7_projection_edges (PK : Camera → Camera_Movement → float → Camera)
    (frames : List Frame) (k : ℕ) (hk : k < frames.length) :
    (orthoAfter PK frames (k + 1) ≠ orthoAfter PK frames k →
      (orthoAfter PK frames (k + 1) = true ∧ oRisingAt frames k = true) ∨
      (orthoAfter PK frames (k + 1) = false ∧ pRisingAt frames k = true)) ∧
    (∀ m, k ≤ m → m ≤ frames.length → orthoAfter PK frames k = true →
      (∀ j, k ≤ j → j < m → pRisingAt frames j = false) →
      orthoAfter PK frames m = true) := by
  constructor
  · rw [orthoAfter_succ PK frames k hk]
    intro hne
    by_cases ho : oRisingAt frames k = true
    · left; simp [ho]
    · by_cases hp : pRisingAt frames k = true
      · right; simp [ho, hp]
      · simp [ho, hp] at hne
  · intro m hkm
    induction m, hkm using Nat.le_induction with
    | base => intro _ h _; exact h
    | succ m hkm ih =>
      intro hm hstart hno
      have hprev := ih (by omega) hstart (fun j h1 h2 => hno j h1 (by omega))
      rw [orthoAfter_succ PK frames m (by omega), hprev, hno m hkm (by omega)]
      simp

/-- C7 on five frames: Orthographic is entered in frame 1 (O pressed while P is
held) and is still the mode after frame 3, both keys being held throughout. -/
theorem C7_projection_edges_witness :
    2 < heldFrames.length ∧ orthoAfter keepCamera heldFrames 4 = true :=
  ⟨by decide,
   (C7_projection_edges keepCamera heldFrames 2 (by decide)).2 4 (by decide) (by decide)
     (by decide) (by decide)⟩

/-- C8 fails as stated: from the initial state, a frame in which P and O are both
newly pressed has a press edge of the perspective key, yet the mode after
`ProcessKeyboardEvents` is Orthographic. -/
theorem C8_both_pressed_counterexample :
    (frameWith true true).keys.GLFW_KEY_P = true ∧ initialState.pWasDown = false ∧
    (ProcessKeyboardEvents keepCamera initialState (frameWith true true).gDeltaTime
        (frameWith true true).keys).bOrthographicProjection = true := by
  decide

/-- C8, amended: for every prior state and every frame input, a press edge of the
orthographic key leaves the mode Orthographic, and a press edge of the
perspective key leaves it Perspective when the orthographic key has no press
edge in the same frame. -/
theorem C8_press_forces_mode (PK : Camera → Camera_Movement → float → Camera)
    (s : State) (dt : float) (keys : Keys) :
    (keys.GLFW_KEY_O = true → s.oWasDown = false →
      (ProcessKeyboardEvents PK s dt keys).bOrthographicProjection = true) ∧
    (keys.GLFW_KEY_P = true → s.pWasDown = false →
      ¬ (keys.GLFW_KEY_O = true ∧ s.oWasDown = false) →
      (ProcessKeyboardEvents PK s dt keys).bOrthographicProjection = false) := by
  rw [(ProcessKeyboardEvents_projection PK s dt keys).1]
  constructor
  · intro hO hw
    simp [hO, hw]
  · intro hP hw hno
    cases hO : keys.GLFW_KEY_O <;> cases how : s.oWasDown <;> simp_all

/-- C8, amended, at two inputs: O newly pressed while P is held gives
Orthographic, and P newly pressed alone in Orthographic mode gives Perspective. -/
theorem C8_press_forces_mode_witness :
    (ProcessKeyboardEvents keepCamera
        { initialState with pWasDown := true } (1 / 60)
        (frameWith true true).keys).bOrthographicProjection = true ∧
    (ProcessKeyboardEvents keepCamera
        { initialState with bOrthographicProjection := true } (1 / 60)
        (frameWith true false).keys).bOrthographicProjection = false :=
  ⟨(C8_press_forces_mode keepCamera { initialState with pWasDown := true } (1 / 60)
      (frameWith true true).keys).1 (by decide) (by decide),
   (C8_press_forces_mode keepCamera { initialState with bOrthographicProjection := true }
      (1 / 60) (frameWith true false).keys).2 (by decide) (by decide) (by decide)⟩

/-- One scroll event replaces the movement speed by the clamp of the speed plus
twice the delta and leaves the rest of the camera alone. -/
theorem Mouse_Scroll_Callback_some (cam : Camera) (xOffset yOffset : ℚ) :
    Mouse_Scroll_Callback (some cam) xOffset yOffset =
      some { cam with MovementSpeed := clamp (cam.MovementSpeed + 2 * yOffset) 1 60 } := by
  unfold Mouse_Scroll_Callback clamp
  simp only [Option.some.injEq]
  have hcomm : cam.MovementSpeed + yOffset * 2 = cam.MovementSpeed + 2 * yOffset := by ring
  rw [hcomm]
  by_cases h1 : cam.MovementSpeed + 2 * yOffset < 1
  · have h2 : ¬ ((1 : ℚ) > 60) := by norm_num
    have hmin : min (cam.MovementSpeed + 2 * yOffset) 60 = cam.MovementSpeed + 2 * yOffset :=
      min_eq_left (by linarith)
    simp [h1, hmin, max_eq_left (le_of_lt h1)]
  · by_cases h2 : cam.MovementSpeed + 2 * yOffset > 60
    · have hmin : min (cam.MovementSpeed + 2 * yOffset) 60 = 60 := min_eq_right (le_of_lt h2)
      simp [h1, h2, hmin]
    · have hmin : min (cam.MovementSpeed + 2 * yOffset) 60 = cam.MovementSpeed + 2 * yOffset :=
        min_eq_left (by linarith)
      have hmax : max 1 (cam.MovementSpeed + 2 * yOffset) = cam.MovementSpeed + 2 * yOffset :=
        max_eq_right (by linarith)
      simp [h1, h2, hmin, hmax]

/-- The scroll callback after a sequence of events and one more. -/
theorem scrollAll_append_one (c : Option Camera) (events : List (ℚ × ℚ)) (ev : ℚ × ℚ) :
    scrollAll c (events ++ [ev]) = Mouse_Scroll_Callback (scrollAll c events) ev.1 ev.2 := by
  simp [scrollAll, List.foldl_append]

/-- A clamp to the interval from 1 to 60 lies in that interval. -/
theorem clamp_mem (x : ℚ) : 1 ≤ clamp x 1 60 ∧ clamp x 1 60 ≤ 60 := by
  unfold clamp
  constructor
  · exact le_max_left _ _
  · exact max_le (by norm_num) (min_le_right _ _)

/-- A clamp leaves a value of the interval alone. -/
theorem clamp_of_mem (x : ℚ) (h1 : 1 ≤ x) (h60 : x ≤ 60) : clamp x 1 60 = x := by
  unfold clamp
  rw [min_eq_left h60, max_eq_right h1]

/-- From a speed inside the limits, any sequence of scroll events leaves a
camera whose speed is inside the limits. -/
theorem scrollAll_mem (events : List (ℚ × ℚ)) :
    ∀ cam : Camera, 1 ≤ cam.MovementSpeed → cam.MovementSpeed ≤ 60 →
      ∃ cam', scrollAll (some cam) events = some cam' ∧
        1 ≤ cam'.MovementSpeed ∧ cam'.MovementSpeed ≤ 60 := by
  induction events with
  | nil => intro cam h1 h60; exact ⟨cam, rfl, h1, h60⟩
  | cons ev rest ih =>
    intro cam _ _
    have hstep : scrollAll (some cam) (ev :: rest) =
        scrollAll (some { cam with
          MovementSpeed := clamp (cam.MovementSpeed + 2 * ev.2) 1 60 }) rest := by
      simp [scrollAll, Mouse_Scroll_Callback_some]
    rw [hstep]
    exact ih _ (clamp_mem _).1 (clamp_mem _).2

/-- C9 fails as stated: from the constructed speed 20, twenty-one scroll events
of delta 1 followed by one of delta -1 leave the speed at 58, while
clamp(20 + 2·20, 1, 60) is 60. -/
theorem C9_saturation_counterexample :
    1 ≤ constructedCamera.MovementSpeed ∧ constructedCamera.MovementSpeed ≤ 60 ∧
    (scrollAll (some constructedCamera) overshootEvents).map Camera.MovementSpeed =
      some 58 ∧
    clamp (constructedCamera.MovementSpeed + 2 * deltaSum overshootEvents) 1 60 = 60 := by
  refine ⟨by norm_num [constructedCamera], by norm_num [constructedCamera], ?_, ?_⟩
  · simp only [overshootEvents, scrollAll, List.replicate, List.cons_append, List.nil_append,
      List.foldl_cons, List.foldl_nil, Mouse_Scroll_Callback_some, constructedCamera, clamp]
    norm_num
  · norm_num [overshootEvents, deltaSum, constructedCamera, clamp, List.replicate]

/-- C9, amended: from an initial speed in [1, 60], when no partial sum
initial + 2·(d1 + ... + dk) with k < N leaves [1, 60], the movement speed after
the N scroll events is clamp(initial + 2·(d1 + ... + dN), 1, 60), and the rest
of the camera is as before. -/
theorem C9_speed_closed_form (cam : Camera) (events : List (ℚ × ℚ))
    (h1 : 1 ≤ cam.MovementSpeed) (h60 : cam.MovementSpeed ≤ 60)
    (hmid : ∀ k, k < events.length →
      1 ≤ cam.MovementSpeed + 2 * deltaSum (events.take k) ∧
      cam.MovementSpeed + 2 * deltaSum (events.take k) ≤ 60) :
    scrollAll (some cam) events =
      some { cam with
        MovementSpeed := clamp (cam.MovementSpeed + 2 * deltaSum events) 1 60 } := by
  induction events using List.reverseRecOn with
  | nil =>
    simp only [scrollAll, List.foldl_nil, deltaSum, List.map_nil, List.sum_nil, mul_zero,
      add_zero]
    rw [clamp_of_mem _ h1 h60]
  | append_singleton rest ev ih =>
    have hrest : ∀ k, k < rest.length →
        1 ≤ cam.MovementSpeed + 2 * deltaSum (rest.take k) ∧
        cam.MovementSpeed + 2 * deltaSum (rest.take k) ≤ 60 := by
      intro k hk
      have h := hmid k (by simp; omega)
      rwa [List.take_append_of_le_length (le_of_lt hk)] at h
    have hlast := hmid rest.length (by simp)
    rw [List.take_left] at hlast
    rw [scrollAll_append_one, ih hrest, Mouse_Scroll_Callback_some]
    simp only [clamp_of_mem _ hlast.1 hlast.2]
    have hsum : deltaSum (rest ++ [ev]) = deltaSum rest + ev.2 := by
      simp [deltaSum]
    rw [hsum, mul_add, add_assoc]

/-- C9, amended, on four events from the constructed speed 20: the partial sums
20, 22, 24, 18 stay inside the limits and the last event ends at the upper
limit. -/
theorem C9_speed_closed_form_witness :
    scrollAll (some constructedCamera) gentleEvents =
      some { constructedCamera with
        MovementSpeed :=
          clamp (constructedCamera.MovementSpeed + 2 * deltaSum gentleEvents) 1 60 } :=
  C9_speed_closed_form constructedCamera gentleEvents
    (by norm_num [constructedCamera]) (by norm_num [constructedCamera])
    (by
      intro k hk
      have hk4 : k < 4 := hk
      interval_cases k <;> norm_num [gentleEvents, deltaSum, constructedCamera])

/-- C10: after one scroll event, whatever the prior speed and the delta, the
movement speed lies in [1, 60] and equals clamp(prior + 2·delta, 1, 60); and
from the constructed speed 20 it lies in [1, 60] after any sequence of scroll
events. -/
theorem C10_speed_within_limits (cam : Camera) (xOffset yOffset : ℚ)
    (events : List (ℚ × ℚ)) :
    (∃ cam', Mouse_Scroll_Callback (some cam) xOffset yOffset = some cam' ∧
      1 ≤ cam'.MovementSpeed ∧ cam'.MovementSpeed ≤ 60 ∧
      cam'.MovementSpeed = clamp (cam.MovementSpeed + 2 * yOffset) 1 60) ∧
    (∃ cam', scrollAll (some constructedCamera) events = some cam' ∧
      1 ≤ cam'.MovementSpeed ∧ cam'.MovementSpeed ≤ 60) := by
  constructor
  · exact ⟨_, Mouse_Scroll_Callback_some cam xOffset yOffset, (clamp_mem _).1,
      (clamp_mem _).2, rfl⟩
  · exact scrollAll_mem events constructedCamera (by norm_num [constructedCamera])
      (by norm_num [constructedCamera])

/-! ## Theorems on scene preparation -/

/-- The registry after one load statement of `PrepareScene`: the entry is
appended when the load succeeds, and nothing changes otherwise. -/
theorem PrepareScene_load_registry (answers : String → LoadAnswer) (s : TextureState)
    (filename tag : String) :
    (PrepareScene.load answers s filename tag).m_textureIDs =
      s.m_textureIDs ++
        (if loadSucceeds (answers filename).image = true then
          [{ ID := ((answers filename).textureID : ℤ), tag := tag }]
         else []) := by
  unfold PrepareScene.load CreateGLTexture loadSucceeds
  cases (answers filename).image with
  | none => simp
  | some img =>
    by_cases h3 : img.colorChannels = 3
    · simp [h3]
    · by_cases h4 : img.colorChannels = 4
      · simp [h3, h4]
      · simp [h3, h4]

/-- The entries kept by a filter, mapped, are the concatenation of one or no
element per entry. -/
theorem map_filter_eq_flatMap {α β : Type} (l : List α) (p : α → Bool) (g : α → β) :
    (l.filter p).map g = l.flatMap (fun a => if p a = true then [g a] else []) := by
  induction l with
  | nil => rfl
  | cons a rest ih =>
    by_cases h : p a = true
    · simp [List.filter_cons, h, ih]
    · simp [List.filter_cons, h, ih]

/-- The texture registry after `PrepareScene`: the registry before, followed by
the entries of the loads that succeed, in the order of the source. -/
theorem PrepareScene_textures (answers : String → LoadAnswer) (s : SceneState) :
    (PrepareScene answers s).textures.m_textureIDs =
      s.textures.m_textureIDs ++
        (sceneLoads.filter (fun l => loadSucceeds (answers l.1).image)).map
          (fun l => { ID := ((answers l.1).textureID : ℤ), tag := l.2 }) := by
  rw [map_filter_eq_flatMap]
  simp only [PrepareScene, BindGLTextures, PrepareScene_load_registry, sceneLoads,
    List.flatMap_cons, List.flatMap_nil, List.append_assoc, List.append_nil]

/-- The texture registry after `PrepareScene` from an empty registry when all
nine loads succeed: nine entries, in the order of the source. -/
theorem PrepareScene_textures_all (answers : String → LoadAnswer) (s : SceneState)
    (hempty : s.textures.m_textureIDs = [])
    (hall : ∀ l ∈ sceneLoads, loadSucceeds (answers l.1).image = true) :
    (PrepareScene answers s).textures.m_textureIDs =
      sceneLoads.map (fun l => { ID := ((answers l.1).textureID : ℤ), tag := l.2 }) := by
  rw [PrepareScene_textures, hempty, List.filter_eq_self.mpr hall]
  rfl

/-- C12: for every combination of answers of the collaborators, the texture
registry after `PrepareScene` is the registry before followed by the entries of
exactly those of the nine loads that succeed, in the order wood, plastic,
keyboard, monitorscreen, DarkGrey, mouse, logitech, plant, pot (a failed load
does not stop the later ones; nine entries at slots 0 to 8 when all succeed from
an empty registry), and the material registry is exactly woodMat, plasticMat,
keyboardMat. -/
theorem C12_PrepareScene_registries (answers : String → LoadAnswer) (s : SceneState) :
    (PrepareScene answers s).textures.m_textureIDs =
      s.textures.m_textureIDs ++
        (sceneLoads.filter (fun l => loadSucceeds (answers l.1).image)).map
          (fun l => { ID := ((answers l.1).textureID : ℤ), tag := l.2 }) ∧
    (s.textures.m_textureIDs = [] →
      (∀ l ∈ sceneLoads, loadSucceeds (answers l.1).image = true) →
      (PrepareScene answers s).textures.m_textureIDs.map TEXTURE_INFO.tag =
        ["wood", "plastic", "keyboard", "monitorscreen", "DarkGrey", "mouse", "logitech",
         "plant", "pot"]) ∧
    (PrepareScene answers s).m_objectMaterials = sceneMaterials := by
  refine ⟨PrepareScene_textures answers s, ?_, ?_⟩
  · intro hempty hall
    rw [PrepareScene_textures_all answers s hempty hall]
    rfl
  · norm_num [PrepareScene, sceneMaterials]

/-- C12 on two sets of answers from a constructed scene manager: when the mouse
image does not decode and the plant image has one channel, the seven other tags
are registered in the order of the source; when every file decodes, all nine
are. -/
theorem C12_PrepareScene_registries_witness :
    (PrepareScene faultyAnswers constructedScene).textures.m_textureIDs.map
        TEXTURE_INFO.tag =
      ["wood", "plastic", "keyboard", "monitorscreen", "DarkGrey", "logitech", "pot"] ∧
    (PrepareScene plainAnswers constructedScene).textures.m_textureIDs.map
        TEXTURE_INFO.tag =
      ["wood", "plastic", "keyboard", "monitorscreen", "DarkGrey", "mouse", "logitech",
       "plant", "pot"] :=
  ⟨by rw [(C12_PrepareScene_registries faultyAnswers constructedScene).1]; decide,
   (C12_PrepareScene_registries plainAnswers constructedScene).2.1 rfl (by decide)⟩

/-- The result of `CreateGLTexture` on an image whose channel count is neither 3
nor 4: false, the registry as before, and a texture generated, bound and
configured on the backend, with no call after that. -/
theorem CreateGLTexture_unsupported (s : TextureState) (img : Image) (textureID : GLuint)
    (maxAniso : float) (tag : String) (h3 : img.colorChannels ≠ 3)
    (h4 : img.colorChannels ≠ 4) :
    CreateGLTexture s (some img) textureID maxAniso tag =
      (false,
        { s with glCalls := s.glCalls ++
            [GLCall.glGenTextures textureID, GLCall.glBindTexture textureID,
             GLCall.glTexParameteriWrapS
               (if tag = "keyboard" ∨ tag = "mouse" then GLenum.GL_CLAMP_TO_EDGE
                else GLenum.GL_REPEAT),
             GLCall.glTexParameteriWrapT
               (if tag = "keyboard" ∨ tag = "mouse" then GLenum.GL_CLAMP_TO_EDGE
                else GLenum.GL_REPEAT),
             GLCall.glTexParameteriMinFilterLinearMipmapLinear,
             GLCall.glTexParameteriMagFilterLinear,
             GLCall.glGetFloatvMaxAnisotropy,
             GLCall.glTexParameterfMaxAnisotropy (if maxAniso < 1 then 1 else maxAniso)] }) := by
  simp [CreateGLTexture, h3, h4]

/-- C13, the code at a failing input: loading a 1-channel image into a
constructed scene manager returns false after `glGenTextures` has been issued;
the texture 7 is alive on the backend afterwards, where none was before, and
neither a deletion nor `stbi_image_free` follows. -/
theorem C13_unsupported_channels_leave_texture :
    (CreateGLTexture constructedScene.textures
        (some { width := 64, height := 64, colorChannels := 1 }) 7 16 "plant").1 = false ∧
    (CreateGLTexture constructedScene.textures
        (some { width := 64, height := 64, colorChannels := 1 }) 7 16 "plant").2.glCalls =
      [GLCall.glGenTextures 7, GLCall.glBindTexture 7,
       GLCall.glTexParameteriWrapS GLenum.GL_REPEAT,
       GLCall.glTexParameteriWrapT GLenum.GL_REPEAT,
       GLCall.glTexParameteriMinFilterLinearMipmapLinear,
       GLCall.glTexParameteriMagFilterLinear,
       GLCall.glGetFloatvMaxAnisotropy,
       GLCall.glTexParameterfMaxAnisotropy 16] ∧
    liveTextures constructedScene.textures.glCalls = [] ∧
    liveTextures (CreateGLTexture constructedScene.textures
        (some { width := 64, height := 64, colorChannels := 1 }) 7 16 "plant").2.glCalls =
      [7] := by
  rw [CreateGLTexture_unsupported _ _ _ _ _ (by decide) (by decide)]
  refine ⟨rfl, ?_, rfl, ?_⟩
  · have hwrap : ¬ ("plant" = "keyboard" ∨ "plant" = "mouse") := by decide
    norm_num [constructedScene, hwrap]
  · norm_num [constructedScene, liveTextures, liveTextures.step]

/-! ## Theorems on scene rendering -/

/-- One statement on a sink that is there: it succeeds, a draw is recorded with
the sink as it is, and every tracked uniform has afterwards the value that
`Call.after` computes. -/
theorem Call_exec_some (F : glm.MathFunctions) (texs : List TEXTURE_INFO)
    (mats : List OBJECT_MATERIAL) (material₀ : OBJECT_MATERIAL) (c : Call)
    (st : RenderState) (sm : ShaderManager) (h : st.m_pShaderManager = some sm) :
    ∃ sm', c.exec F texs mats material₀ st =
        some { m_pShaderManager := some sm'
               draws := st.draws ++ (drawMeshes [c]).map
                 (fun m => { mesh := m, shader := some sm }) } ∧
      ∀ name, Tracked name → sm'.value name = c.after texs name (sm.value name) := by
  cases c with
  | SetTransformations scaleXYZ x y z positionXYZ =>
    refine ⟨_, by simp [Call.exec, h, SceneManager.SetTransformations, drawMeshes]; rfl, ?_⟩
    intro name hname
    rw [ShaderManager_value_set, if_neg (fun hn => hname.1 hn.symm)]
    rfl
  | SetShaderColor r g b a =>
    refine ⟨_, by simp [Call.exec, h, SceneManager.SetShaderColor, drawMeshes]; rfl, ?_⟩
    intro name _
    rw [ShaderManager_value_set, ShaderManager_value_set]
    rfl
  | SetShaderTexture textureTag =>
    refine ⟨_, by simp [Call.exec, h, SceneManager.SetShaderTexture, drawMeshes]; rfl, ?_⟩
    intro name _
    rw [ShaderManager_value_set, ShaderManager_value_set]
    rfl
  | SetTextureUVScale u v =>
    refine ⟨_, by simp [Call.exec, h, SceneManager.SetTextureUVScale, drawMeshes]; rfl, ?_⟩
    intro name _
    rw [ShaderManager_value_set]
    rfl
  | SetShaderMaterial materialTag =>
    by_cases hfound : 0 < mats.length ∧ (FindMaterial mats materialTag material₀).1 = true
    · have hl := hfound.1
      have hf := hfound.2
      refine ⟨_, by simp [Call.exec, h, SetShaderMaterial, drawMeshes, hl, hf]; rfl, ?_⟩
      intro name hname
      rw [ShaderManager_value_set, ShaderManager_value_set, ShaderManager_value_set,
        if_neg (fun hn => hname.2.2.2 hn.symm), if_neg (fun hn => hname.2.2.1 hn.symm),
        if_neg (fun hn => hname.2.1 hn.symm)]
      rfl
    · refine ⟨sm, ?_, fun name _ => rfl⟩
      by_cases hlen : 0 < mats.length
      · have hnf : (FindMaterial mats materialTag material₀).1 = false := by
          cases hb : (FindMaterial mats materialTag material₀).1
          · rfl
          · exact absurd ⟨hlen, hb⟩ hfound
        simp [Call.exec, h, SceneManager.SetShaderMaterial, drawMeshes, hlen, hnf]
      · simp [Call.exec, h, SceneManager.SetShaderMaterial, drawMeshes, hlen]
  | setBoolValue n value =>
    refine ⟨_, by simp [Call.exec, h, drawMeshes]; rfl, ?_⟩
    intro name _
    rw [ShaderManager_value_set]
    rfl
  | setIntValue n value =>
    refine ⟨_, by simp [Call.exec, h, drawMeshes]; rfl, ?_⟩
    intro name _
    rw [ShaderManager_value_set]
    rfl
  | setVec3Value n x y z =>
    refine ⟨_, by simp [Call.exec, h, drawMeshes]; rfl, ?_⟩
    intro name _
    rw [ShaderManager_value_set]
    rfl
  | draw mesh =>
    exact ⟨sm, by simp [Call.exec, h, drawMeshes], fun name _ => rfl⟩

/-- The bookkeeping of the draws, one statement unfolded. -/
theorem uniformAtDraws_cons (texs : List TEXTURE_INFO) (name : String) (c : Call)
    (rest : List Call) (cur : Option UniformValue) :
    uniformAtDraws texs name (c :: rest) cur =
      (drawMeshes [c]).map (fun m => (m, cur)) ++
        uniformAtDraws texs name rest (c.after texs name cur) := by
  cases c <;> rfl

/-- A sequence of statements on a sink that is there: it runs to the end, the
draws it records carry for every tracked uniform the value that `uniformAtDraws`
computes, and the sink holds at the end the value that `uniformAfter`
computes. -/
theorem Call_run_some (F : glm.MathFunctions) (texs : List TEXTURE_INFO)
    (mats : List OBJECT_MATERIAL) (material₀ : OBJECT_MATERIAL) (calls : List Call) :
    ∀ (st : RenderState) (sm : ShaderManager), st.m_pShaderManager = some sm →
      ∃ st' sm', Call.run F texs mats material₀ calls st = some st' ∧
        st'.m_pShaderManager = some sm' ∧
        ∀ name, Tracked name →
          st'.draws.map (fun d => (d.mesh, d.uniform name)) =
            st.draws.map (fun d => (d.mesh, d.uniform name)) ++
              uniformAtDraws texs name calls (sm.value name) ∧
          sm'.value name = uniformAfter texs name calls (sm.value name) := by
  induction calls with
  | nil =>
    intro st sm h
    exact ⟨st, sm, rfl, h, fun name _ => ⟨by simp [uniformAtDraws], rfl⟩⟩
  | cons c rest ih =>
    intro st sm h
    obtain ⟨sm₁, hexec, hval⟩ := Call_exec_some F texs mats material₀ c st sm h
    obtain ⟨st', sm', hrun, hsm', hall⟩ :=
      ih { m_pShaderManager := some sm₁
           draws := st.draws ++ (drawMeshes [c]).map
             (fun m => { mesh := m, shader := some sm }) } sm₁ rfl
    refine ⟨st', sm', ?_, hsm', ?_⟩
    · rw [Call.run, hexec]
      exact hrun
    · intro name hname
      obtain ⟨hdraws, hfinal⟩ := hall name hname
      rw [hval name hname] at hdraws hfinal
      refine ⟨?_, hfinal⟩
      rw [hdraws, uniformAtDraws_cons]
      simp [DrawCall.uniform, List.map_append, List.append_assoc]

/-- One call of `RenderScene` on a sink that is there, from an empty list of
draws: it runs to the end, and the draws and the final sink carry for every
tracked uniform the values computed by the bookkeeping over the statements of
`SetupSceneLights` followed by those of `RenderScene`. -/
theorem RenderScene_some (F : glm.MathFunctions) (texs : List TEXTURE_INFO)
    (mats : List OBJECT_MATERIAL) (material₀ : OBJECT_MATERIAL) (sm : ShaderManager) :
    ∃ rs sm', RenderScene F texs mats material₀ { m_pShaderManager := some sm, draws := [] } =
        some rs ∧
      rs.m_pShaderManager = some sm' ∧
      ∀ name, Tracked name →
        rs.draws.map (fun d => (d.mesh, d.uniform name)) =
          uniformAtDraws texs name RenderScene.calls
            (uniformAfter texs name SetupSceneLights.calls (sm.value name)) ∧
        sm'.value name =
          uniformAfter texs name RenderScene.calls
            (uniformAfter texs name SetupSceneLights.calls (sm.value name)) := by
  obtain ⟨st₁, sm₁, hrun₁, hsm₁, hall₁⟩ :=
    Call_run_some F texs mats material₀ SetupSceneLights.calls
      { m_pShaderManager := some sm, draws := [] } sm rfl
  obtain ⟨rs, sm', hrun, hsm', hall⟩ :=
    Call_run_some F texs mats material₀ RenderScene.calls st₁ sm₁ hsm₁
  refine ⟨rs, sm', ?_, hsm', ?_⟩
  · simp only [RenderScene, SetupSceneLights, hrun₁, hrun]
  · intro name hname
    obtain ⟨hd₁, hf₁⟩ := hall₁ name hname
    obtain ⟨hd, hf⟩ := hall name hname
    have hnil : uniformAtDraws texs name SetupSceneLights.calls (sm.value name) = [] := rfl
    rw [hnil] at hd₁
    simp only [List.map_nil, List.append_nil] at hd₁
    rw [hd₁, hf₁] at hd
    rw [hf₁] at hf
    exact ⟨by simpa using hd, hf⟩

/-- The draws of a segment, observed: the observation of all draws, cut at the
same places. -/
theorem segmentDraws_map {β : Type} (draws : List DrawCall) (pre seg : List Call)
    (f : DrawCall → β) :
    (segmentDraws draws pre seg).map f =
      ((draws.map f).drop (drawMeshes pre).length).take (drawMeshes seg).length := by
  simp [segmentDraws, List.map_take, List.map_drop]

/-- The names of the uniforms that the theorems below observe are tracked. -/
theorem tracked_names :
    Tracked g_UseLightingName ∧ Tracked g_UseTextureName ∧ Tracked g_TextureValueName ∧
      Tracked g_ColorValueName := by
  unfold Tracked
  decide

/-- C14, the code: in one call of `RenderScene` on any sink, the lighting flag is
off at every one of the six face draws of the monitor, the front face and the
back, left, right, top and bottom faces alike; the flag is switched on again
only behind the last of them. -/
theorem C14_monitor_faces_all_unlit (F : glm.MathFunctions) (texs : List TEXTURE_INFO)
    (mats : List OBJECT_MATERIAL) (material₀ : OBJECT_MATERIAL) (sm : ShaderManager) :
    ∃ rs, RenderScene F texs mats material₀ { m_pShaderManager := some sm, draws := [] } =
        some rs ∧
      (segmentDraws rs.draws RenderScene.beforeMonitor RenderScene.monitor).map
          (fun d => (d.mesh, d.uniform g_UseLightingName)) =
        [(MeshCall.DrawBoxMeshSide_box_front, some (UniformValue.setBoolValue false)),
         (MeshCall.DrawBoxMeshSide_box_back, some (UniformValue.setBoolValue false)),
         (MeshCall.DrawBoxMeshSide_box_left, some (UniformValue.setBoolValue false)),
         (MeshCall.DrawBoxMeshSide_box_right, some (UniformValue.setBoolValue false)),
         (MeshCall.DrawBoxMeshSide_box_top, some (UniformValue.setBoolValue false)),
         (MeshCall.DrawBoxMeshSide_box_bottom, some (UniformValue.setBoolValue false))] := by
  obtain ⟨rs, sm', hrun, _, hall⟩ := RenderScene_some F texs mats material₀ sm
  refine ⟨rs, hrun, ?_⟩
  rw [segmentDraws_map, (hall g_UseLightingName tracked_names.1).1]
  rfl

/-- C15: in one call of `RenderScene` on a sink in any state, the draws are those
of the objects before the monitor, of the monitor and of the objects after it
(mousepad, mouse, pot, soil, stem, leaves); every draw before the monitor and
every draw after it is issued with the lighting flag on, and the flag is on when
`RenderScene` returns. -/
theorem C15_lighting_on_around_monitor (F : glm.MathFunctions) (texs : List TEXTURE_INFO)
    (mats : List OBJECT_MATERIAL) (material₀ : OBJECT_MATERIAL) (sm : ShaderManager) :
    ∃ rs sm', RenderScene F texs mats material₀ { m_pShaderManager := some sm, draws := [] } =
        some rs ∧
      rs.m_pShaderManager = some sm' ∧
      rs.draws.map DrawCall.mesh =
        drawMeshes RenderScene.beforeMonitor ++ drawMeshes RenderScene.monitor ++
          drawMeshes RenderScene.afterMonitor ∧
      (segmentDraws rs.draws [] RenderScene.beforeMonitor).map
          (fun d => (d.mesh, d.uniform g_UseLightingName)) =
        (drawMeshes RenderScene.beforeMonitor).map
          (fun m => (m, some (UniformValue.setBoolValue true))) ∧
      (segmentDraws rs.draws (RenderScene.beforeMonitor ++ RenderScene.monitor)
          RenderScene.afterMonitor).map (fun d => (d.mesh, d.uniform g_UseLightingName)) =
        (drawMeshes RenderScene.afterMonitor).map
          (fun m => (m, some (UniformValue.setBoolValue true))) ∧
      sm'.value g_UseLightingName = some (UniformValue.setBoolValue true) := by
  obtain ⟨rs, sm', hrun, hsm', hall⟩ := RenderScene_some F texs mats material₀ sm
  obtain ⟨hdraws, hfinal⟩ := hall g_UseLightingName tracked_names.1
  refine ⟨rs, sm', hrun, hsm', ?_, ?_, ?_, ?_⟩
  · have hfst : rs.draws.map DrawCall.mesh =
        (rs.draws.map (fun d => (d.mesh, d.uniform g_UseLightingName))).map Prod.fst := by
      simp [List.map_map, Function.comp_def]
    rw [hfst, hdraws]
    rfl
  · rw [segmentDraws_map, hdraws]
    rfl
  · rw [segmentDraws_map, hdraws]
    rfl
  · rw [hfinal]
    rfl

/-- The slots of the ten texture tags of `RenderScene` in a registry that holds
the nine tags of `PrepareScene` in the order of the source. -/
theorem FindTextureSlot_sceneLoads (ids : String → ℤ) :
    FindTextureSlot (sceneLoads.map (fun l => { ID := ids l.1, tag := l.2 })) "wood" = 0 ∧
    FindTextureSlot (sceneLoads.map (fun l => { ID := ids l.1, tag := l.2 })) "plastic" = 1 ∧
    FindTextureSlot (sceneLoads.map (fun l => { ID := ids l.1, tag := l.2 })) "keyboard" = 2 ∧
    FindTextureSlot (sceneLoads.map (fun l => { ID := ids l.1, tag := l.2 }))
      "monitorscreen" = 3 ∧
    FindTextureSlot (sceneLoads.map (fun l => { ID := ids l.1, tag := l.2 })) "DarkGrey" = 4 ∧
    FindTextureSlot (sceneLoads.map (fun l => { ID := ids l.1, tag := l.2 })) "mouse" = 5 ∧
    FindTextureSlot (sceneLoads.map (fun l => { ID := ids l.1, tag := l.2 })) "logitech" = 6 ∧
    FindTextureSlot (sceneLoads.map (fun l => { ID := ids l.1, tag := l.2 })) "plant" = 7 ∧
    FindTextureSlot (sceneLoads.map (fun l => { ID := ids l.1, tag := l.2 })) "pot" = 8 ∧
    FindTextureSlot (sceneLoads.map (fun l => { ID := ids l.1, tag := l.2 })) "soil" = -1 := by
  refine ⟨?_, ?_, ?_, ?_, ?_, ?_, ?_, ?_, ?_, ?_⟩ <;>
    simp [FindTextureSlot, FindTextureSlot.loop, sceneLoads]

/-- The material registry after `PrepareScene`: the three materials of the
scene, whatever was registered before. -/
theorem PrepareScene_materials (answers : String → LoadAnswer) (s : SceneState) :
    (PrepareScene answers s).m_objectMaterials = sceneMaterials := by
  norm_num [PrepareScene, sceneMaterials]

/-- The three materials of the scene are found by `FindMaterial`. -/
theorem FindMaterial_sceneMaterials (material₀ : OBJECT_MATERIAL) :
    (FindMaterial sceneMaterials "woodMat" material₀).1 = true ∧
    (FindMaterial sceneMaterials "plasticMat" material₀).1 = true ∧
    (FindMaterial sceneMaterials "keyboardMat" material₀).1 = true := by
  refine ⟨?_, ?_, ?_⟩ <;> simp [FindMaterial, FindMaterial.loop, sceneMaterials]

/-- C16: after `PrepareScene` from an empty texture registry with all nine loads
succeeding, every texture tag that `RenderScene` hands to `SetShaderTexture`
resolves to a slot from 0 to 8, except soil, which is handed over, is not in the
registry and resolves to -1; the two soil draws are issued with the use-texture
flag at 1 and the sampler at -1; and every material tag that `RenderScene` hands
to `SetShaderMaterial` is found in the material registry. -/
theorem C16_scene_tags_resolve (answers : String → LoadAnswer) (s : SceneState)
    (F : glm.MathFunctions) (material₀ : OBJECT_MATERIAL) (sm : ShaderManager)
    (hempty : s.textures.m_textureIDs = [])
    (hall : ∀ l ∈ sceneLoads, loadSucceeds (answers l.1).image = true) :
    (∀ tag ∈ textureTags RenderScene.calls, tag ≠ "soil" →
      0 ≤ FindTextureSlot (PrepareScene answers s).textures.m_textureIDs tag ∧
      FindTextureSlot (PrepareScene answers s).textures.m_textureIDs tag ≤ 8) ∧
    "soil" ∈ textureTags RenderScene.calls ∧
    (∀ e ∈ (PrepareScene answers s).textures.m_textureIDs, e.tag ≠ "soil") ∧
    FindTextureSlot (PrepareScene answers s).textures.m_textureIDs "soil" = -1 ∧
    (∀ tag ∈ materialTags RenderScene.calls,
      (FindMaterial (PrepareScene answers s).m_objectMaterials tag material₀).1 = true) ∧
    ∃ rs, RenderScene F (PrepareScene answers s).textures.m_textureIDs
          (PrepareScene answers s).m_objectMaterials material₀
          { m_pShaderManager := some sm, draws := [] } = some rs ∧
      (segmentDraws rs.draws
          (RenderScene.beforeMonitor ++ RenderScene.monitor ++ RenderScene.mousepad ++
            RenderScene.mouse ++ RenderScene.pot)
          RenderScene.soil).map (fun d => (d.mesh, d.uniform g_UseTextureName)) =
        [(MeshCall.DrawSphereMesh, some (UniformValue.setIntValue 1)),
         (MeshCall.DrawBoxMeshSide_box_top, some (UniformValue.setIntValue 1))] ∧
      (segmentDraws rs.draws
          (RenderScene.beforeMonitor ++ RenderScene.monitor ++ RenderScene.mousepad ++
            RenderScene.mouse ++ RenderScene.pot)
          RenderScene.soil).map (fun d => (d.mesh, d.uniform g_TextureValueName)) =
        [(MeshCall.DrawSphereMesh, some (UniformValue.setSampler2DValue (-1))),
         (MeshCall.DrawBoxMeshSide_box_top, some (UniformValue.setSampler2DValue (-1)))] := by
  have htexs := PrepareScene_textures_all answers s hempty hall
  have hslots := FindTextureSlot_sceneLoads (fun f => ((answers f).textureID : ℤ))
  rw [← htexs] at hslots
  obtain ⟨h0, h1, h2, h3, h4, h5, h6, h7, h8, hsoil⟩ := hslots
  have hmats := FindMaterial_sceneMaterials material₀
  rw [← PrepareScene_materials answers s] at hmats
  have htags : textureTags RenderScene.calls =
      ["wood", "plastic", "keyboard", "keyboard", "plastic", "DarkGrey", "monitorscreen",
       "monitorscreen", "DarkGrey", "logitech", "DarkGrey", "mouse", "pot", "soil",
       "plant"] := rfl
  have hmtags : materialTags RenderScene.calls =
      ["woodMat", "plasticMat", "plasticMat", "keyboardMat", "plasticMat", "plasticMat",
       "plasticMat", "plasticMat", "plasticMat", "plasticMat", "plasticMat",
       "plasticMat"] := rfl
  refine ⟨?_, ?_, ?_, hsoil, ?_, ?_⟩
  · intro tag htag hne
    rw [htags] at htag
    simp only [List.mem_cons, List.mem_singleton, List.not_mem_nil, or_false] at htag
    rcases htag with rfl | rfl | rfl | rfl | rfl | rfl | rfl | rfl | rfl | rfl | rfl | rfl |
      rfl | rfl | rfl
    · rw [h0]; decide
    · rw [h1]; decide
    · rw [h2]; decide
    · rw [h2]; decide
    · rw [h1]; decide
    · rw [h4]; decide
    · rw [h3]; decide
    · rw [h3]; decide
    · rw [h4]; decide
    · rw [h6]; decide
    · rw [h4]; decide
    · rw [h5]; decide
    · rw [h8]; decide
    · exact absurd rfl hne
    · rw [h7]; decide
  · rw [htags]
    decide
  · rw [htexs]
    simp [sceneLoads]
  · intro tag htag
    rw [hmtags] at htag
    simp only [List.mem_cons, List.mem_singleton, List.not_mem_nil, or_false] at htag
    rcases htag with rfl | rfl | rfl | rfl | rfl | rfl | rfl | rfl | rfl | rfl | rfl | rfl
    · exact hmats.1
    · exact hmats.2.1
    · exact hmats.2.1
    · exact hmats.2.2
    all_goals exact hmats.2.1
  · obtain ⟨rs, sm', hrun, _, hobs⟩ :=
      RenderScene_some F (PrepareScene answers s).textures.m_textureIDs
        (PrepareScene answers s).m_objectMaterials material₀ sm
    refine ⟨rs, hrun, ?_, ?_⟩
    · rw [segmentDraws_map, (hobs g_UseTextureName tracked_names.2.1).1]
      rfl
    · rw [segmentDraws_map, (hobs g_TextureValueName tracked_names.2.2.1).1, ← hsoil]
      rfl

/-- C16 on a constructed scene manager with every file decoding: the tag soil
resolves to -1 in the registry that `PrepareScene` leaves. -/
theorem C16_scene_tags_resolve_witness :
    constructedScene.textures.m_textureIDs = [] ∧
    FindTextureSlot (PrepareScene plainAnswers constructedScene).textures.m_textureIDs
      "soil" = -1 :=
  ⟨rfl,
   (C16_scene_tags_resolve plainAnswers constructedScene
      { cos := fun a => 1 - a * a / 2, sin := fun a => a, inversesqrt := fun a => (3 - a) / 2 }
      blankMaterial { uniforms := [] } rfl (by decide)).2.2.2.1⟩

/-- C17: in one call of `RenderScene` on any sink and any registries, the six
face draws of the keyboard base are issued with the use-texture flag at 0 and
the colour (0.15, 0.15, 0.15, 1.0), while the sampler still holds the slot of
the tag keyboard, selected just before `SetShaderColor` switched the texture
mode off; and the stem is drawn with the use-texture flag at 0. -/
theorem C17_keyboard_base_solid_colour (F : glm.MathFunctions) (texs : List TEXTURE_INFO)
    (mats : List OBJECT_MATERIAL) (material₀ : OBJECT_MATERIAL) (sm : ShaderManager) :
    ∃ rs, RenderScene F texs mats material₀ { m_pShaderManager := some sm, draws := [] } =
        some rs ∧
      (segmentDraws rs.draws (RenderScene.floor ++ RenderScene.desk)
          RenderScene.keyboardBase).map (fun d => (d.mesh, d.uniform g_UseTextureName)) =
        [(MeshCall.DrawBoxMeshSide_box_front, some (UniformValue.setIntValue 0)),
         (MeshCall.DrawBoxMeshSide_box_back, some (UniformValue.setIntValue 0)),
         (MeshCall.DrawBoxMeshSide_box_left, some (UniformValue.setIntValue 0)),
         (MeshCall.DrawBoxMeshSide_box_right, some (UniformValue.setIntValue 0)),
         (MeshCall.DrawBoxMeshSide_box_bottom, some (UniformValue.setIntValue 0)),
         (MeshCall.DrawBoxMeshSide_box_top, some (UniformValue.setIntValue 0))] ∧
      (segmentDraws rs.draws (RenderScene.floor ++ RenderScene.desk)
          RenderScene.keyboardBase).map (fun d => d.uniform g_ColorValueName) =
        List.replicate 6
          (some (UniformValue.setVec4Value { r := 0.15, g := 0.15, b := 0.15, a := 1.0 })) ∧
      (segmentDraws rs.draws (RenderScene.floor ++ RenderScene.desk)
          RenderScene.keyboardBase).map (fun d => d.uniform g_TextureValueName) =
        List.replicate 6
          (some (UniformValue.setSampler2DValue (FindTextureSlot texs "keyboard"))) ∧
      (segmentDraws rs.draws
          (RenderScene.beforeMonitor ++ RenderScene.monitor ++ RenderScene.mousepad ++
            RenderScene.mouse ++ RenderScene.pot ++ RenderScene.soil)
          RenderScene.stem).map (fun d => (d.mesh, d.uniform g_UseTextureName)) =
        [(MeshCall.DrawCylinderMesh, some (UniformValue.setIntValue 0))] := by
  obtain ⟨rs, sm', hrun, _, hobs⟩ := RenderScene_some F texs mats material₀ sm
  have hsnd : ∀ name, rs.draws.map (fun d => d.uniform name) =
      (rs.draws.map (fun d => (d.mesh, d.uniform name))).map Prod.snd := by
    intro name
    simp [List.map_map, Function.comp_def]
  refine ⟨rs, hrun, ?_, ?_, ?_, ?_⟩
  · rw [segmentDraws_map, (hobs g_UseTextureName tracked_names.2.1).1]
    rfl
  · rw [segmentDraws_map, hsnd, (hobs g_ColorValueName tracked_names.2.2.2).1]
    rfl
  · rw [segmentDraws_map, hsnd, (hobs g_TextureValueName tracked_names.2.2.1).1]
    rfl
  · rw [segmentDraws_map, (hobs g_UseTextureName tracked_names.2.1).1]
    rfl

/-! ## Theorems on the mouse callback -/

